import Mathlib

/-!
# Verification of the storyboard node-graph core

A shallow embedding of the graph data model, the graph-store mutators
(`updateNodeData`, `addConnection`), the two enrichment passes
(`useSmartConnections`, `useConnectionEnricher`) and the generation
orchestrator (`useGeminiGenerator`, current and legacy generations),
together with theorems settling the specification claims about them.

Modelling conventions:
* JavaScript objects holding the per-node data are modelled by one flat
  record `NData` (field access on a variant that lacks the field yields
  the default, as `undefined` does through the `as` casts in the source);
  `undefined` and `null` are both modelled by `none`.
* A partial-update payload is a record of `Option`-wrapped fields:
  `none` means the key is absent, `some v` means the key is present with
  value `v` (so `some none` models a key present with `undefined`/`null`).
* The React passes read the `(nodes, connections)` snapshot captured by
  the hook and write through `updateNodeData`; a pass is therefore
  modelled as a pure function from the snapshot to a list of events
  (external calls and writes), and running the pass applies the writes.
* External collaborators (Gemini wrappers) are an `Oracle` of functions
  returning `Except String _`: `.error` models a rejected promise and
  `.ok` a resolved one (resolving to `null` is `.ok none`).
* `JSON.stringify` is modelled by an executable serializer over a small
  JSON value type; the indented variant used for prompts is kept as a
  separate name with the same underlying serialization.
-/

/- String constants used by the embedding (kept in one place). -/
namespace SC

def empty : String := ""
def quote : String := "\""
def comma : String := ","
def colon : String := ":"
def lbrack : String := "["
def rbrack : String := "]"
def lbrace : String := "\x7b"
def rbrace : String := "\x7d"
def jnull : String := "null"
def jtrue : String := "true"
def jfalse : String := "false"
def mainCharacter : String := "Main Character"
def cinematicShot : String := "Cinematic shot"
def transformBased : String := "[Transformation] based on previous node"
def msgVeoFailed : String := "Failed to generate VEO prompt."
def msgInvalidScene : String := "Invalid scene index or ID."
def msgSpecFailed : String := "Failed to generate cinematic specification."
def msgConnectScript : String := "Connect a Script (Input 2) or Upload an Image."
def msgTransformEmpty : String := "Transformation prompt is empty."
def msgNotConnected : String := "Image node is not connected."
def msgInputNotFound : String := "Input node not found."
def msgNeedsRefInput : String := "Transformation node needs a reference image input."
def msgRefMissing : String := "Reference image is missing from the previous node. Please generate the source image first."
def msgUnsupportedInput : String := "Unsupported input node type: "
def refWords : String := "reference image"

end SC

/-- JSON values passed between nodes (passports, cinematic specs, ...).
Arrays and objects are represented by explicit cons spines (`jarrCons`,
`jobjCons`) so that equality stays derivable; the claims only ever move
these values around, serialize them and compare them. -/
inductive J where
  | null : J
  | jb (b : Bool) : J
  | js (s : String) : J
  | jn (n : Int) : J
  | jarrNil : J
  | jarrCons (head tail : J) : J
  | jobjNil : J
  | jobjCons (key : String) (val rest : J) : J
deriving DecidableEq, Repr

mutual

/-- Model of `JSON.stringify` on a JSON value. -/
def J.ser : J → String
  | .null => SC.jnull
  | .jb b => if b then SC.jtrue else SC.jfalse
  | .js s => SC.quote ++ s ++ SC.quote
  | .jn n => toString n
  | .jarrNil => SC.lbrack ++ SC.rbrack
  | .jarrCons h t => SC.lbrack ++ J.ser h ++ J.serArrTail t ++ SC.rbrack
  | .jobjNil => SC.lbrace ++ SC.rbrace
  | .jobjCons k v r =>
      SC.lbrace ++ SC.quote ++ k ++ SC.quote ++ SC.colon ++ J.ser v ++ J.serObjTail r ++ SC.rbrace

/-- Serialization of the tail of an array spine. -/
def J.serArrTail : J → String
  | .jarrCons h t => SC.comma ++ J.ser h ++ J.serArrTail t
  | _ => SC.empty

/-- Serialization of the tail of an object spine. -/
def J.serObjTail : J → String
  | .jobjCons k v r => SC.comma ++ SC.quote ++ k ++ SC.quote ++ SC.colon ++ J.ser v ++ J.serObjTail r
  | _ => SC.empty

end

/-- Model of `JSON.stringify(x, null, 2)` as used to build prompt strings;
the indentation is irrelevant to every property proved here, so it shares
the serialization of `J.ser`. -/
def J.ser2 (j : J) : String := J.ser j

/-- Model of `JSON.stringify` applied to a possibly-absent value
(`JSON.stringify(undefined)` is `undefined`). -/
def serOpt : Option J → Option String := Option.map J.ser

/-- JavaScript truthiness of a string (empty string is falsy). -/
def truthyS (s : String) : Bool := !(s == SC.empty)

/-- JavaScript truthiness of a possibly-absent string. -/
def truthyOS : Option String → Bool
  | none => false
  | some s => truthyS s

/-- JavaScript truthiness of a possibly-absent JSON value. -/
def truthyOJ : Option J → Bool
  | none => false
  | some .null => false
  | some (.jb b) => b
  | some (.js s) => truthyS s
  | some (.jn n) => !(n == 0)
  | some .jarrNil => true
  | some (.jarrCons _ _) => true
  | some .jobjNil => true
  | some (.jobjCons _ _ _) => true

/-- `x || null` on a possibly-absent JSON value. -/
def orNull (x : Option J) : Option J := if truthyOJ x then x else none

/-- Node types (`NodeType` in `types/graph.ts`). -/
inductive NType where
  | character | setting | script | image | transformation | video
deriving DecidableEq, Repr

/-- `sceneEnrichmentStatus` values. -/
inductive EStatus where
  | idle | loading | success | error
deriving DecidableEq, Repr

/-- Image node `mode` values. -/
inductive NMode where
  | standard | transformation
deriving DecidableEq, Repr

/-- `GenerationTrace.stepFailed` values. -/
inductive TStep where
  | traversal | architectJson | imageApi
deriving DecidableEq, Repr

/-- `GenerationTrace.status` values. -/
inductive TStatus where
  | success | error
deriving DecidableEq, Repr

/-- A `ScriptScene`. -/
structure Scene where
  id : String
  title : String := SC.empty
  description : String
  isExpanded : Bool := true
  selectedSettingId : Option String := none
deriving DecidableEq, Repr

/-- A `GenerationTrace` (the `inputs` sub-object is flattened). -/
structure Trace where
  status : TStatus
  timestamp : Int
  stepFailed : Option TStep
  inputsSceneText : String
  inputsCharacterText : Option String := none
  inputsSettingText : Option String := none
  architectOutput : Option J := none
  rawError : Option String := none
deriving DecidableEq, Repr

/-- `ImageData.incomingTransformationData`. -/
structure TData where
  json : Option J := none
  referenceImage : Option String := none
deriving DecidableEq, Repr

/-- The union of every node-data variant, flattened: reading a field that
the variant does not carry yields the default, exactly as reading an
absent property of a JavaScript object yields `undefined`. -/
structure NData where
  prompt : String := SC.empty
  image : Option String := none
  characterPassport : Option J := none
  settingPassport : Option J := none
  script : String := SC.empty
  scenes : List Scene := []
  cachedCharacterId : Option String := none
  cachedCharacterJson : Option J := none
  isCharacterLoading : Bool := false
  cachedSettingId : Option String := none
  cachedSettingJson : Option J := none
  isSettingLoading : Bool := false
  isLoading : Bool := false
  error : Option String := none
  debugTrace : Option Trace := none
  sceneEnrichmentStatus : Option EStatus := none
  enrichedSceneJson : Option J := none
  mode : Option NMode := none
  incomingTransformationData : Option TData := none
  modificationPrompt : String := SC.empty
  transformationJson : Option J := none
  isProcessing : Bool := false
  referenceImage : Option String := none
  promptSchema : Option J := none
  startImage : Option String := none
  endImage : Option String := none
  movementPrompt : Option String := none
deriving DecidableEq, Repr

/-- A partial update payload for `updateNodeData`: `none` means the key is
absent from the payload object, `some v` that it is present with value `v`
(`some none` is a key explicitly set to `undefined`/`null`). -/
structure Payload where
  prompt : Option String := none
  image : Option (Option String) := none
  characterPassport : Option (Option J) := none
  settingPassport : Option (Option J) := none
  script : Option String := none
  scenes : Option (List Scene) := none
  cachedCharacterId : Option (Option String) := none
  cachedCharacterJson : Option (Option J) := none
  isCharacterLoading : Option Bool := none
  cachedSettingId : Option (Option String) := none
  cachedSettingJson : Option (Option J) := none
  isSettingLoading : Option Bool := none
  isLoading : Option Bool := none
  error : Option (Option String) := none
  debugTrace : Option (Option Trace) := none
  sceneEnrichmentStatus : Option (Option EStatus) := none
  enrichedSceneJson : Option (Option J) := none
  mode : Option (Option NMode) := none
  incomingTransformationData : Option (Option TData) := none
  modificationPrompt : Option String := none
  transformationJson : Option (Option J) := none
  isProcessing : Option Bool := none
  referenceImage : Option (Option String) := none
  promptSchema : Option (Option J) := none
  startImage : Option (Option String) := none
  endImage : Option (Option String) := none
  movementPrompt : Option (Option String) := none
deriving DecidableEq, Repr

/-- The shallow merge `{ ...n.data, ...data }` of a payload over data. -/
def mergeP (d : NData) (p : Payload) : NData where
  prompt := p.prompt.getD d.prompt
  image := p.image.getD d.image
  characterPassport := p.characterPassport.getD d.characterPassport
  settingPassport := p.settingPassport.getD d.settingPassport
  script := p.script.getD d.script
  scenes := p.scenes.getD d.scenes
  cachedCharacterId := p.cachedCharacterId.getD d.cachedCharacterId
  cachedCharacterJson := p.cachedCharacterJson.getD d.cachedCharacterJson
  isCharacterLoading := p.isCharacterLoading.getD d.isCharacterLoading
  cachedSettingId := p.cachedSettingId.getD d.cachedSettingId
  cachedSettingJson := p.cachedSettingJson.getD d.cachedSettingJson
  isSettingLoading := p.isSettingLoading.getD d.isSettingLoading
  isLoading := p.isLoading.getD d.isLoading
  error := p.error.getD d.error
  debugTrace := p.debugTrace.getD d.debugTrace
  sceneEnrichmentStatus := p.sceneEnrichmentStatus.getD d.sceneEnrichmentStatus
  enrichedSceneJson := p.enrichedSceneJson.getD d.enrichedSceneJson
  mode := p.mode.getD d.mode
  incomingTransformationData := p.incomingTransformationData.getD d.incomingTransformationData
  modificationPrompt := p.modificationPrompt.getD d.modificationPrompt
  transformationJson := p.transformationJson.getD d.transformationJson
  isProcessing := p.isProcessing.getD d.isProcessing
  referenceImage := p.referenceImage.getD d.referenceImage
  promptSchema := p.promptSchema.getD d.promptSchema
  startImage := p.startImage.getD d.startImage
  endImage := p.endImage.getD d.endImage
  movementPrompt := p.movementPrompt.getD d.movementPrompt

/-- A node of the graph. -/
structure GNode where
  id : String
  type : NType
  px : Int := 0
  py : Int := 0
  data : NData
deriving DecidableEq, Repr

/-- A connection port key: a Script scene id (string) or a positional
index (number). -/
inductive PortKey where
  | sid (s : String)
  | pidx (n : Nat)
deriving DecidableEq, Repr

/-- A connection (edge) of the graph. -/
structure Conn where
  id : String
  fromNodeId : String
  fromOutput : PortKey
  toNodeId : String
  toInputIndex : Nat
deriving DecidableEq, Repr

/-- The argument of `addConnection` (a connection without its fresh id). -/
structure ConnSpec where
  fromNodeId : String
  fromOutput : PortKey
  toNodeId : String
  toInputIndex : Nat
deriving DecidableEq, Repr

/-- The graph store snapshot: `(nodes, connections)`. -/
structure GState where
  nodes : List GNode
  connections : List Conn
deriving DecidableEq, Repr

/-- `nodes.find(n => n.id === i)`. -/
def gfind (S : GState) (i : String) : Option GNode :=
  S.nodes.find? (fun n => n.id == i)

/-- Whether an `updateNodeData` call trips the image-wipe guard of
`useGraphEditor.ts` (payload contains `image: undefined/null` while the
node currently holds a truthy image); the source merely logs a warning
in that case. -/
def wouldWipeImage (nodes : List GNode) (i : String) (p : Payload) : Bool :=
  p.image == some none &&
    nodes.any (fun n => n.id == i && truthyOS n.data.image)

/-- `updateNodeData` from `useGraphEditor.ts`: shallow-merges the payload
into every node with the given id.  The image-wipe guard only logs: the
protective early return is commented out in the source, so the merge is
applied unconditionally. -/
def updateNodeData (nodes : List GNode) (i : String) (p : Payload) : List GNode :=
  nodes.map (fun n => if n.id == i then { n with data := mergeP n.data p } else n)

/-- `addConnection` from `useGraphEditor.ts`: rejects self-loops, rejects
a target input that is already occupied, otherwise appends with a fresh
id (the id is passed in, standing for `crypto.randomUUID()`). -/
def addConnection (conns : List Conn) (spec : ConnSpec) (newId : String) : List Conn :=
  if spec.fromNodeId == spec.toNodeId then conns
  else if conns.any (fun c => c.toNodeId == spec.toNodeId && c.toInputIndex == spec.toInputIndex) then
    conns
  else
    conns ++ [{ id := newId, fromNodeId := spec.fromNodeId, fromOutput := spec.fromOutput,
                toNodeId := spec.toNodeId, toInputIndex := spec.toInputIndex }]

/-- `disconnectInput(nodeId, inputIndex)` with an index given: removes
every connection into that specific input. -/
def disconnectInput (conns : List Conn) (nodeId : String) (inputIndex : Nat) : List Conn :=
  conns.filter (fun c => !(c.toNodeId == nodeId && c.toInputIndex == inputIndex))

/-- No two connections terminate at the same `(toNodeId, toInputIndex)`. -/
def UniqueTargets (conns : List Conn) : Prop :=
  conns.Pairwise (fun a b => ¬(a.toNodeId = b.toNodeId ∧ a.toInputIndex = b.toInputIndex))

/-- Events produced by a pass or by the orchestrator: writes through
`updateNodeData` and calls to the external collaborators (each call is
tagged with the node the result is destined for). -/
inductive Ev where
  | wr (targetId : String) (p : Payload)
  | callEnrichCharacter (scriptId name prompt : String) (image : Option String)
  | callEnrichSetting (scriptId prompt : String) (image : Option String)
  | callFetchCharacterPassport (targetId prompt : String)
  | callFetchCinematicSpec (targetId sceneText : String) (passport settingPassport : Option J)
  | callEnrichSceneDescription (targetId prompt : String)
  | callGenerateSceneImage (targetId prompt : String) (images : List String)
  | callGenerateVeoPrompt (targetId : String) (startImage endImage : Option String) (movement : String)
deriving DecidableEq, Repr

/-- Whether an event is a write (as opposed to an external call). -/
def Ev.isWrite : Ev → Bool
  | .wr _ _ => true
  | _ => false

/-- The external calls among a list of events. -/
def callsOf (evs : List Ev) : List Ev := evs.filter (fun e => !e.isWrite)

/-- Whether a write touches a loading flag: it sets `isCharacterLoading`,
`isSettingLoading` or `isLoading`, or drives `sceneEnrichmentStatus` to
`loading`. -/
def Ev.touchesLoadingFlag : Ev → Bool
  | .wr _ p =>
      p.isCharacterLoading.isSome || p.isSettingLoading.isSome || p.isLoading.isSome ||
        p.sceneEnrichmentStatus == some (some .loading)
  | _ => false

/-- The loading-flag writes among a list of events. -/
def loadingWrites (evs : List Ev) : List Ev := evs.filter Ev.touchesLoadingFlag

/-- Application of a single event to the store (calls change nothing). -/
def applyEv (S : GState) : Ev → GState
  | .wr i p => { S with nodes := updateNodeData S.nodes i p }
  | _ => S

/-- Application of a list of events to the store, in order. -/
def applyEvs (S : GState) (evs : List Ev) : GState := evs.foldl applyEv S

/-- The external collaborators (section 6 of the spec): each returns
`Except String _`, where `.error` models a rejected promise and `.ok` a
resolved one (`.ok none` models resolving to `null`). -/
structure Oracle where
  enrichCharacter : String → String → Option String → Except String (Option J)
  enrichSetting : String → Option String → Except String (Option J)
  fetchCharacterPassport : String → Except String (Option J)
  fetchCinematicSpec : String → Option J → Option J → Except String (Option J)
  enrichSceneDescription : String → Except String J
  generateSceneImage : String → List String → Except String String
  generateVeoPrompt : Option String → Option String → String → Except String (Option J)
  now : Int := 0

/-- An oracle whose scene-spec and passport derivations never reject
(they may still resolve to `null`); this matches the wrappers in
`services/promptArchitect.ts`, which catch their own exceptions. -/
def Oracle.ArchitectTotal (O : Oracle) : Prop :=
  (∀ a b c, (O.fetchCinematicSpec a b c).isOk) ∧ (∀ a, (O.fetchCharacterPassport a).isOk)

/-- Character half of one Script node's processing in
`useSmartConnections` (input 0): fires when the connected identity
differs from the cached one and no derivation is in flight; on
disconnection clears the cache eagerly. -/
def smartCharEvents (O : Oracle) (S : GState) (n : GNode) : List Ev :=
  match S.connections.find? (fun c => c.toNodeId == n.id && c.toInputIndex == 0) with
  | some cc =>
    match gfind S cc.fromNodeId with
    | some ch =>
      if n.data.cachedCharacterId != some ch.id && !n.data.isCharacterLoading then
        Ev.wr n.id { isCharacterLoading := some true } ::
        Ev.callEnrichCharacter n.id SC.mainCharacter ch.data.prompt ch.data.image ::
        (match O.enrichCharacter SC.mainCharacter ch.data.prompt ch.data.image with
         | .ok j =>
             [Ev.wr n.id { isCharacterLoading := some false,
                           cachedCharacterId := some (some ch.id),
                           cachedCharacterJson := some j }]
         | .error _ =>
             [Ev.wr n.id { isCharacterLoading := some false,
                           cachedCharacterId := some (some ch.id) }])
      else []
    | none => []
  | none =>
    if truthyOS n.data.cachedCharacterId then
      [Ev.wr n.id { cachedCharacterId := some none, cachedCharacterJson := some none,
                    isCharacterLoading := some false }]
    else []

/-- Setting half of one Script node's processing in
`useSmartConnections` (input 1). -/
def smartSettingEvents (O : Oracle) (S : GState) (n : GNode) : List Ev :=
  match S.connections.find? (fun c => c.toNodeId == n.id && c.toInputIndex == 1) with
  | some sc =>
    match gfind S sc.fromNodeId with
    | some st =>
      if n.data.cachedSettingId != some st.id && !n.data.isSettingLoading then
        Ev.wr n.id { isSettingLoading := some true } ::
        Ev.callEnrichSetting n.id st.data.prompt st.data.image ::
        (match O.enrichSetting st.data.prompt st.data.image with
         | .ok j =>
             [Ev.wr n.id { isSettingLoading := some false,
                           cachedSettingId := some (some st.id),
                           cachedSettingJson := some j }]
         | .error _ =>
             [Ev.wr n.id { isSettingLoading := some false,
                           cachedSettingId := some (some st.id) }])
      else []
    | none => []
  | none =>
    if truthyOS n.data.cachedSettingId then
      [Ev.wr n.id { cachedSettingId := some none, cachedSettingJson := some none,
                    isSettingLoading := some false }]
    else []

/-- Processing of one node by the `useSmartConnections` pass. -/
def smartNodeEvents (O : Oracle) (S : GState) (n : GNode) : List Ev :=
  if n.type == .script then smartCharEvents O S n ++ smartSettingEvents O S n else []

/-- The full `useSmartConnections` pass over a snapshot. -/
def smartEvents (O : Oracle) (S : GState) : List Ev :=
  S.nodes.flatMap (smartNodeEvents O S)

/-- Initial write of the Image branch of `generateImage`. -/
def imgW0 (t : GNode) : Ev :=
  Ev.wr t.id { isLoading := some true, error := some none, debugTrace := some none }

/-- Initial write of the Video branch of `generateImage`. -/
def vidW0 (t : GNode) : Ev :=
  Ev.wr t.id { isLoading := some true, error := some none }

/-- Initial generation trace. -/
def tr0Of (O : Oracle) : Trace :=
  { status := .success, timestamp := O.now, stepFailed := some .traversal,
    inputsSceneText := SC.empty }

/-- The connection into the target's script/prompt port (input 1). -/
def scriptConnOf (S : GState) (t : GNode) : Option Conn :=
  S.connections.find? (fun c => c.toNodeId == t.id && c.toInputIndex == 1)

/-- The connection into the target's global visual-reference port
(input 0). -/
def refConnOf (S : GState) (t : GNode) : Option Conn :=
  S.connections.find? (fun c => c.toNodeId == t.id && c.toInputIndex == 0)

/-- The chained transformation JSON of an Image node, if any. -/
def incomingJsonOf (t : GNode) : Option J :=
  (t.data.incomingTransformationData).bind (fun td => td.json)

/-- The chained transformation reference image of an Image node. -/
def incomingRefOf (t : GNode) : Option String :=
  (t.data.incomingTransformationData).bind (fun td => td.referenceImage)

/-- Manual prompt fallback (`if (imageNode.data.prompt) promptString = ...`). -/
def promptOr (s : String) : String :=
  if truthyS s then s else SC.empty

/-- Source node of an optional connection (`find` on the snapshot). -/
def connSource (S : GState) : Option Conn → Option GNode
  | some c => gfind S c.fromNodeId
  | none => none

/-- Reference list from a chained transformation reference image
(push only when truthy). -/
def tdRefList : Option String → List String
  | some r => if truthyS r then [r] else []
  | none => []

/-- `movementPrompt || "Cinematic shot"`. -/
def movementOr : Option String → String
  | some m => if truthyS m then m else SC.cinematicShot
  | none => SC.cinematicShot

/-- Description of an optionally resolved scene (empty when absent). -/
def sceneDescOf : Option Scene → String
  | some sc => sc.description
  | none => SC.empty

/-- Selected-setting id of an optionally resolved scene. -/
def sceneSelOf : Option Scene → Option String
  | some sc => sc.selectedSettingId
  | none => none

/-- Explicit selection among the connected Setting nodes: only consulted
when the scene's `selectedSettingId` is truthy. -/
def chooseSelected (l : List GNode) (sel : Option String) : Option GNode :=
  if truthyOS sel then l.find? (fun n => sel == some n.id) else none

/-- Fallback to the first connected Setting when no explicit selection
matched. -/
def orElseHead (x : Option GNode) (l : List GNode) : Option GNode :=
  match x with
  | some n => some n
  | none => l.head?

/-- Setting passport as the generator resolves it
(`targetSettingNode?.data.settingPassport || null`, no type check). -/
def settingPassportOf : Option GNode → Option J
  | some n => orNull n.data.settingPassport
  | none => none

/-- Setting passport as the enricher resolves it (with the
`type === Setting` check). -/
def settingPassportEnr : Option GNode → Option J
  | some sn =>
      if sn.type == .setting && truthyOJ sn.data.settingPassport then
        sn.data.settingPassport
      else none
  | none => none

/-- Scene resolution from a Script output port (string scene id or
positional index). -/
def sceneFromOutput (scenes : List Scene) : PortKey → Option Scene
  | .sid s => scenes.find? (fun sc => sc.id == s)
  | .pidx n => scenes.get? n

/-- Architect stage of Rule B: the cinematic-spec call and the
success/error status write. -/
def ruleBSpecEvents (O : Oracle) (targetId sceneText : String)
    (passport settingPassport : Option J) : List Ev :=
  Ev.callFetchCinematicSpec targetId sceneText passport settingPassport ::
  (match O.fetchCinematicSpec sceneText passport settingPassport with
   | .error _ => [Ev.wr targetId { sceneEnrichmentStatus := some (some .error) }]
   | .ok r =>
       [Ev.wr targetId { sceneEnrichmentStatus := some (some .success),
                         enrichedSceneJson := some r,
                         mode := some (some .standard) }])

/-- Firing part of Rule B: the synchronous loading write, the on-demand
character passport and the architect stage. -/
def ruleBFireEvents (O : Oracle) (target : GNode) (sceneText : String)
    (settingPassport : Option J) (charNode : Option GNode) : List Ev :=
  Ev.wr target.id { sceneEnrichmentStatus := some (some .loading) } ::
  (match charNode with
   | some ch =>
     if ch.type == .character then
       if truthyOJ ch.data.characterPassport then
         ruleBSpecEvents O target.id sceneText ch.data.characterPassport settingPassport
       else if truthyS ch.data.prompt then
         match O.fetchCharacterPassport ch.data.prompt with
         | .error _ =>
             [Ev.callFetchCharacterPassport ch.id ch.data.prompt,
              Ev.wr target.id { sceneEnrichmentStatus := some (some .error) }]
         | .ok p =>
             (Ev.callFetchCharacterPassport ch.id ch.data.prompt ::
              (if truthyOJ p then [Ev.wr ch.id { characterPassport := some p }] else [])) ++
             ruleBSpecEvents O target.id sceneText p settingPassport
       else ruleBSpecEvents O target.id sceneText none settingPassport
     else ruleBSpecEvents O target.id sceneText none settingPassport
   | none => ruleBSpecEvents O target.id sceneText none settingPassport)

/-- Rule B of `useConnectionEnricher` (Script to Image scene-spec
enrichment) for one connection: the guard, the scene resolution, the
setting selection, then the firing part. -/
def ruleBEvents (O : Oracle) (S : GState) (c : Conn) (target source : GNode) : List Ev :=
  if !(target.type == .image && source.type == .script) then [] else
  if target.data.mode == some .transformation then [] else
  if truthyOJ target.data.enrichedSceneJson ||
     target.data.sceneEnrichmentStatus == some .loading ||
     target.data.sceneEnrichmentStatus == some .success then [] else
  if !(truthyS (sceneDescOf (sceneFromOutput source.data.scenes c.fromOutput))) then [] else
  ruleBFireEvents O target
    (sceneDescOf (sceneFromOutput source.data.scenes c.fromOutput))
    (settingPassportEnr (orElseHead
      (chooseSelected
        (((S.connections.filter (fun cc => cc.toNodeId == source.id && cc.toInputIndex == 1)).map
            (fun cc => gfind S cc.fromNodeId)).reduceOption)
        (sceneSelOf (sceneFromOutput source.data.scenes c.fromOutput)))
      (((S.connections.filter (fun cc => cc.toNodeId == source.id && cc.toInputIndex == 1)).map
          (fun cc => gfind S cc.fromNodeId)).reduceOption)))
    (connSource S
      (S.connections.find? (fun cc => cc.toNodeId == source.id && cc.toInputIndex == 0)))

/-- Rule of `useConnectionEnricher` syncing a source Image node's
generated image into a downstream Transformation node's
`referenceImage` (Image to Transformation). -/
def rule2Events (target source : GNode) : List Ev :=
  if target.type == .transformation && source.type == .image then
    if truthyOS source.data.image && target.data.referenceImage != source.data.image then
      [Ev.wr target.id { referenceImage := some source.data.image }]
    else []
  else []

/-- Rule of `useConnectionEnricher` propagating a Transformation node's
result and reference image into a downstream Image node
(Transformation to Image), guarded by serialized content equality. -/
def rule3Events (target source : GNode) : List Ev :=
  if target.type == .image && source.type == .transformation then
    let json := source.data.transformationJson
    let b64 := source.data.referenceImage
    if truthyOJ json && truthyOS b64 then
      let incomingJsonStr := serOpt ((target.data.incomingTransformationData).bind (fun td => td.json))
      let currentRef := (target.data.incomingTransformationData).bind (fun td => td.referenceImage)
      if target.data.mode != some .transformation ||
         serOpt json != incomingJsonStr || b64 != currentRef then
        [Ev.wr target.id { mode := some (some .transformation),
                           incomingTransformationData := some (some { json := json, referenceImage := b64 }),
                           enrichedSceneJson := some none,
                           sceneEnrichmentStatus := some (some .success) }]
      else []
    else []
  else []

/-- Processing of one connection by the `useConnectionEnricher` pass. -/
def enrichConnEvents (O : Oracle) (S : GState) (c : Conn) : List Ev :=
  match gfind S c.toNodeId, gfind S c.fromNodeId with
  | some target, some source =>
      ruleBEvents O S c target source ++ rule2Events target source ++ rule3Events target source
  | _, _ => []

/-- The full `useConnectionEnricher` pass over a snapshot. -/
def enricherEvents (O : Oracle) (S : GState) : List Ev :=
  S.connections.flatMap (enrichConnEvents O S)

/-- One run of the Enrichment Propagation Engine: the
`useSmartConnections` pass followed by the `useConnectionEnricher` pass
(hook order in `App.tsx`); both read the same snapshot. -/
def engineEvents (O : Oracle) (S : GState) : List Ev :=
  smartEvents O S ++ enricherEvents O S

/-- The store after one engine run. -/
def engineStep (O : Oracle) (S : GState) : GState :=
  applyEvs S (engineEvents O S)

/-- Resolution of a Video frame input: the upstream node's truthy
`image`, if any. -/
def resolveFrame (S : GState) : Option Conn → Option String
  | some c =>
    match gfind S c.fromNodeId with
    | some src => if truthyOS src.data.image then src.data.image else none
    | none => none
  | none => none

/-- An error-branch write of `generateImage`: clears `isLoading`, stores
the message and the trace marked as failed. -/
def finishErrEv (tid : String) (msg : String) (tr : Trace) : Ev :=
  Ev.wr tid { isLoading := some false, error := some (some msg),
              debugTrace := some (some { tr with status := .error, rawError := some msg }) }

/-- Final stage of the Image branch of `generateImage` (current
generation, `hooks/useGeminiGenerator.ts`): the final input check, the
global visual-reference injection (input 0) and the image call. -/
def genTailEvents (O : Oracle) (S : GState) (t : GNode) (refConnection : Option Conn)
    (promptString : String) (refs : List String) (cinematicSpec : Option J) (tr : Trace) : List Ev :=
  if !(truthyS promptString) && !(truthyOS t.data.image) then
    [finishErrEv t.id SC.msgConnectScript tr]
  else
    let refs2 := match refConnection with
      | some rc =>
        match gfind S rc.fromNodeId with
        | some rn =>
          match rn.data.image with
          | some img => if truthyS img && !(refs.contains img) then refs ++ [img] else refs
          | none => refs
        | none => refs
      | none => refs
    let trApi := { tr with stepFailed := some .imageApi }
    Ev.callGenerateSceneImage t.id promptString refs2 ::
    (match O.generateSceneImage promptString refs2 with
     | .error e => [finishErrEv t.id e trApi]
     | .ok img =>
         [Ev.wr t.id { image := some (some img), isLoading := some false,
                       prompt := some promptString,
                       enrichedSceneJson := some cinematicSpec,
                       debugTrace := some (some { trApi with stepFailed := none }) }])

/-- Video-branch tail of `generateImage`: the VEO prompt call and the
final write. -/
def videoCallEvents (O : Oracle) (t : GNode) (startImage endImage : Option String)
    (movement : String) : List Ev :=
  Ev.callGenerateVeoPrompt t.id startImage endImage movement ::
  (match O.generateVeoPrompt startImage endImage movement with
   | .error e => [Ev.wr t.id { isLoading := some false, error := some (some e) }]
   | .ok none => [Ev.wr t.id { isLoading := some false, error := some (some SC.msgVeoFailed) }]
   | .ok (some ps) =>
       [Ev.wr t.id { isLoading := some false, promptSchema := some (some ps),
                     startImage := some startImage, endImage := some endImage }])

/-- Architect stage of the Script path of the current `generateImage`:
the cinematic-spec call, then the terminal stage with the character and
setting reference images collected. -/
def specCallEvents (O : Oracle) (S : GState) (t : GNode) (refConnection : Option Conn)
    (desc : String) (passport settingPassport : Option J)
    (characterNode targetSettingNode : Option GNode) (tr1 : Trace) : List Ev :=
  let tr2 := { tr1 with stepFailed := some .architectJson }
  Ev.callFetchCinematicSpec t.id desc (orNull passport) settingPassport ::
  (match O.fetchCinematicSpec desc (orNull passport) settingPassport with
   | .error e => [finishErrEv t.id e tr2]
   | .ok none => [finishErrEv t.id SC.msgSpecFailed tr2]
   | .ok (some spec) =>
       let tr3 := { tr2 with architectOutput := some spec }
       let refsA := match characterNode with
         | some cn => if truthyOS cn.data.image then [cn.data.image.getD SC.empty] else []
         | none => []
       let refsB := match targetSettingNode with
         | some stn => if truthyOS stn.data.image then [stn.data.image.getD SC.empty] else []
         | none => []
       genTailEvents O S t refConnection (J.ser2 spec) (refsA ++ refsB) (some spec) tr3)

/-- On-demand character passport stage of the Script path of the
current `generateImage` (caching the fetched passport back onto the
Character node), followed by the architect stage. -/
def genImagePassportEvents (O : Oracle) (S : GState) (t : GNode) (refConnection : Option Conn)
    (desc : String) (settingPassport : Option J)
    (characterNode targetSettingNode : Option GNode) (tr1 : Trace) : List Ev :=
  match characterNode with
  | some cn =>
    if truthyS cn.data.prompt && !(truthyOJ cn.data.characterPassport) then
      match O.fetchCharacterPassport cn.data.prompt with
      | .error e =>
          [Ev.callFetchCharacterPassport cn.id cn.data.prompt,
           finishErrEv t.id e tr1]
      | .ok p =>
          (Ev.callFetchCharacterPassport cn.id cn.data.prompt ::
           (if truthyOJ p then [Ev.wr cn.id { characterPassport := some p }] else [])) ++
          specCallEvents O S t refConnection desc
            p settingPassport characterNode targetSettingNode tr1
    else
      specCallEvents O S t refConnection desc
        cn.data.characterPassport settingPassport characterNode targetSettingNode tr1
  | none =>
      specCallEvents O S t refConnection desc
        none settingPassport characterNode targetSettingNode tr1

/-- Script path of the current `generateImage` (after the initial
loading write): scene resolution, character and setting context,
on-demand character passport, then the architect and image stages. -/
def genImageScriptEvents (O : Oracle) (S : GState) (t : GNode) (refConnection : Option Conn)
    (scon : Conn) (sn : GNode) (tr0 : Trace) : List Ev :=
  match sceneFromOutput sn.data.scenes scon.fromOutput with
  | none => [finishErrEv t.id SC.msgInvalidScene tr0]
  | some scene =>
    let tr1 := { tr0 with inputsSceneText := scene.description }
    let charConnection := S.connections.find?
      (fun c => c.toNodeId == sn.id && c.toInputIndex == 0)
    let characterNode := connSource S charConnection
    let settingConnections := S.connections.filter
      (fun c => c.toNodeId == sn.id && c.toInputIndex == 1)
    let connectedSettings :=
      (settingConnections.map (fun cc => gfind S cc.fromNodeId)).reduceOption
    let targetSettingNode :=
      orElseHead (chooseSelected connectedSettings scene.selectedSettingId) connectedSettings
    let settingPassport := settingPassportOf targetSettingNode
    genImagePassportEvents O S t refConnection scene.description settingPassport
      characterNode targetSettingNode tr1

/-- The `generateImage` trigger of the current generation
(`hooks/useGeminiGenerator.ts`), as the list of events it produces from
a snapshot: the Video branch, then for Image targets the three input
priorities (chained transformation data, direct Script connection,
manual prompt fallback). -/
def generateImageEvents (O : Oracle) (S : GState) (t : GNode) : List Ev :=
  if t.type == .video then
    vidW0 t ::
      videoCallEvents O t
        (resolveFrame S (S.connections.find? (fun c => c.toNodeId == t.id && c.toInputIndex == 0)))
        (resolveFrame S (S.connections.find? (fun c => c.toNodeId == t.id && c.toInputIndex == 1)))
        (movementOr t.data.movementPrompt)
  else if t.data.mode == some .transformation && truthyOJ (incomingJsonOf t) then
    imgW0 t ::
      genTailEvents O S t (refConnOf S t) (J.ser2 ((incomingJsonOf t).getD .null))
        (tdRefList (incomingRefOf t)) (some ((incomingJsonOf t).getD .null))
        { tr0Of O with architectOutput := some ((incomingJsonOf t).getD .null),
                       inputsSceneText := SC.transformBased }
  else
    match connSource S (scriptConnOf S t) with
    | some sn =>
      if sn.type == .script then
        match scriptConnOf S t with
        | some scon => imgW0 t :: genImageScriptEvents O S t (refConnOf S t) scon sn (tr0Of O)
        | none => [imgW0 t, finishErrEv t.id SC.msgInvalidScene (tr0Of O)]
      else
        imgW0 t :: genTailEvents O S t (refConnOf S t) (promptOr t.data.prompt) [] none (tr0Of O)
    | none =>
      imgW0 t :: genTailEvents O S t (refConnOf S t) (promptOr t.data.prompt) [] none (tr0Of O)

/-- Running `generateImage` (current generation): the events applied to
the store. -/
def generateImage (O : Oracle) (S : GState) (t : GNode) : GState :=
  applyEvs S (generateImageEvents O S t)

/-- Eligibility filter of the current `generateAll`: Image nodes that are
not loading and do not already hold an image. -/
def generateAllEligible (S : GState) : List GNode :=
  S.nodes.filter (fun n => n.type == .image && !n.data.isLoading && !(truthyOS n.data.image))

/-- The current `generateAll`: sequentially runs `generateImage` for each
eligible Image node; every read uses the captured snapshot, the writes
accumulate in the store. -/
def generateAll (O : Oracle) (S : GState) : GState :=
  (generateAllEligible S).foldl (fun st n => applyEvs st (generateImageEvents O S n)) S

/-- Enum string of a node type (values of `NodeType` in `types/graph.ts`). -/
def ntypeStr : NType → String
  | .character => "CHARACTER"
  | .setting => "SETTING"
  | .script => "SCRIPT"
  | .image => "IMAGE"
  | .transformation => "TRANSFORMATION"
  | .video => "VIDEO"

/-- Prefix of the legacy transformation trace text. -/
def transformPrefix : String := "[Transformation] "

/-- Legacy message for a transformation input that is not an Image node. -/
def msgTransformInputImage : String := "Transformation input must be an Image Node."

/-- Final image-call stage of the legacy `generateImage`
(`src/unnamed/part_003`): no final input check and no
`enrichedSceneJson` in the success write. -/
def genTailLegacy (O : Oracle) (t : GNode) (promptString : String) (refs : List String)
    (tr : Trace) : List Ev :=
  let trApi := { tr with stepFailed := some .imageApi }
  Ev.callGenerateSceneImage t.id promptString refs ::
  (match O.generateSceneImage promptString refs with
   | .error e => [finishErrEv t.id e trApi]
   | .ok img =>
       [Ev.wr t.id { image := some (some img), isLoading := some false,
                     prompt := some promptString,
                     debugTrace := some (some { trApi with stepFailed := none }) }])

/-- Architect stage of the Script path of the legacy `generateImage`. -/
def specCallLegacyEvents (O : Oracle) (t : GNode) (desc : String)
    (passport settingPassport : Option J)
    (characterNode targetSettingNode : Option GNode) (tr1 : Trace) : List Ev :=
  let tr2 := { tr1 with stepFailed := some .architectJson }
  Ev.callFetchCinematicSpec t.id desc (orNull passport) settingPassport ::
  (match O.fetchCinematicSpec desc (orNull passport) settingPassport with
   | .error e => [finishErrEv t.id e tr2]
   | .ok none => [finishErrEv t.id SC.msgSpecFailed tr2]
   | .ok (some spec) =>
       let tr3 := { tr2 with architectOutput := some spec }
       let refsA := match characterNode with
         | some cn => if truthyOS cn.data.image then [cn.data.image.getD SC.empty] else []
         | none => []
       let refsB := match targetSettingNode with
         | some stn => if truthyOS stn.data.image then [stn.data.image.getD SC.empty] else []
         | none => []
       genTailLegacy O t (J.ser2 spec) (refsA ++ refsB) tr3)

/-- Trace of the legacy Transformation path once the architect stage
has begun. -/
def legacyTrT (O : Oracle) (modPrompt : String) : Trace :=
  { tr0Of O with
    inputsSceneText := transformPrefix ++ modPrompt,
    stepFailed := some .architectJson }

/-- Look-back stage of the legacy Transformation path: find the node
feeding the Transformation node and take its generated image as the
reference; all of its failures are raised after `stepFailed` was set to
the architect stage. -/
def legacyTransformTail (O : Oracle) (S : GState) (t : GNode) (inputNodeId : String)
    (tjson : J) (tr1 : Trace) : List Ev :=
  match S.connections.find? (fun c => c.toNodeId == inputNodeId) with
  | none => [finishErrEv t.id SC.msgNeedsRefInput { tr1 with architectOutput := some tjson }]
  | some refConnection =>
    match gfind S refConnection.fromNodeId with
    | none => [finishErrEv t.id msgTransformInputImage { tr1 with architectOutput := some tjson }]
    | some refImageNode =>
      if !(refImageNode.type == .image) then
        [finishErrEv t.id msgTransformInputImage { tr1 with architectOutput := some tjson }]
      else
        match refImageNode.data.image with
        | some img =>
          if truthyS img then
            genTailLegacy O t (J.ser2 tjson) [img] { tr1 with architectOutput := some tjson }
          else [finishErrEv t.id SC.msgRefMissing { tr1 with architectOutput := some tjson }]
        | none => [finishErrEv t.id SC.msgRefMissing { tr1 with architectOutput := some tjson }]

/-- On-the-fly transformation JSON generation of the legacy
Transformation path (when no cached `transformationJson` exists),
cached back onto the Transformation node. -/
def legacyTransformFetch (O : Oracle) (S : GState) (t inputNode : GNode) : List Ev :=
  match O.enrichSceneDescription inputNode.data.modificationPrompt with
  | .error e =>
      [Ev.callEnrichSceneDescription inputNode.id inputNode.data.modificationPrompt,
       finishErrEv t.id e (legacyTrT O inputNode.data.modificationPrompt)]
  | .ok tj2 =>
      (Ev.callEnrichSceneDescription inputNode.id inputNode.data.modificationPrompt ::
       [Ev.wr inputNode.id { transformationJson := some (some tj2) }]) ++
      legacyTransformTail O S t inputNode.id tj2 (legacyTrT O inputNode.data.modificationPrompt)

/-- Passport stage of the legacy Script path. -/
def genImagePassportLegacyEvents (O : Oracle) (t : GNode) (desc : String)
    (settingPassport : Option J) (characterNode targetSettingNode : Option GNode)
    (tr1 : Trace) : List Ev :=
  match characterNode with
  | some cn =>
    if truthyS cn.data.prompt && !(truthyOJ cn.data.characterPassport) then
      match O.fetchCharacterPassport cn.data.prompt with
      | .error e =>
          [Ev.callFetchCharacterPassport cn.id cn.data.prompt,
           finishErrEv t.id e tr1]
      | .ok p =>
          (Ev.callFetchCharacterPassport cn.id cn.data.prompt ::
           (if truthyOJ p then [Ev.wr cn.id { characterPassport := some p }] else [])) ++
          specCallLegacyEvents O t desc p settingPassport characterNode targetSettingNode tr1
    else
      specCallLegacyEvents O t desc cn.data.characterPassport settingPassport
        characterNode targetSettingNode tr1
  | none =>
      specCallLegacyEvents O t desc none settingPassport
        characterNode targetSettingNode tr1

/-- The legacy `generateImage` (`src/unnamed/part_003`): requires an
input connection (any index) and dispatches on the input node type; the
Transformation path resolves the reference image by looking one step
further back, after the architect stage has begun. -/
def generateImageLegacyEvents (O : Oracle) (S : GState) (t : GNode) : List Ev :=
  let tr0 : Trace := { status := .success, timestamp := O.now,
                       stepFailed := some .traversal, inputsSceneText := SC.empty }
  let w0 := Ev.wr t.id { isLoading := some true, error := some none, debugTrace := some none }
  match S.connections.find? (fun c => c.toNodeId == t.id) with
  | none => [w0, finishErrEv t.id SC.msgNotConnected tr0]
  | some inputConnection =>
    match gfind S inputConnection.fromNodeId with
    | none => [w0, finishErrEv t.id SC.msgInputNotFound tr0]
    | some inputNode =>
      if inputNode.type == .script then
        match sceneFromOutput inputNode.data.scenes inputConnection.fromOutput with
        | none => [w0, finishErrEv t.id SC.msgInvalidScene tr0]
        | some scene =>
          let charConnection := S.connections.find?
            (fun c => c.toNodeId == inputNode.id && c.toInputIndex == 0)
          let characterNode := connSource S charConnection
          let settingConnections := S.connections.filter
            (fun c => c.toNodeId == inputNode.id && c.toInputIndex == 1)
          let connectedSettings :=
            (settingConnections.map (fun cc => gfind S cc.fromNodeId)).reduceOption
          let targetSettingNode :=
            orElseHead (chooseSelected connectedSettings scene.selectedSettingId) connectedSettings
          let tr1 := { tr0 with
                       inputsSceneText := scene.description,
                       inputsCharacterText := (match characterNode with
                         | some cn => if truthyS cn.data.prompt then some cn.data.prompt else none
                         | none => none),
                       inputsSettingText := (match targetSettingNode with
                         | some stn => if truthyS stn.data.prompt then some stn.data.prompt else none
                         | none => none) }
          let settingPassport := settingPassportOf targetSettingNode
          w0 :: genImagePassportLegacyEvents O t scene.description settingPassport
            characterNode targetSettingNode tr1
      else if inputNode.type == .transformation then
        if !(truthyS inputNode.data.modificationPrompt) then
          [w0, finishErrEv t.id SC.msgTransformEmpty tr0]
        else
          match inputNode.data.transformationJson with
          | some tj =>
            if truthyOJ (some tj) then
              w0 :: legacyTransformTail O S t inputNode.id tj
                (legacyTrT O inputNode.data.modificationPrompt)
            else w0 :: legacyTransformFetch O S t inputNode
          | none => w0 :: legacyTransformFetch O S t inputNode
      else
        [w0, finishErrEv t.id (SC.msgUnsupportedInput ++ ntypeStr inputNode.type) tr0]

/-- Running the legacy `generateImage`. -/
def generateImageLegacy (O : Oracle) (S : GState) (t : GNode) : GState :=
  applyEvs S (generateImageLegacyEvents O S t)

/-- Concrete ids, prompts and JSON values used by witnesses and
counterexamples. -/
def idScript1 : String := "script-1"
def idImage1 : String := "image-1"
def idImage2 : String := "image-2"
def idImage3 : String := "image-3"
def idChar1 : String := "char-1"
def idSet1 : String := "set-1"
def idSet2 : String := "set-2"
def idTrans1 : String := "trans-1"
def idVideo1 : String := "video-1"
def idConn1 : String := "conn-1"
def idConn2 : String := "conn-2"
def idConn3 : String := "conn-3"
def idConn4 : String := "conn-4"
def idScene1 : String := "scene-1"
def descScene1 : String := "A knight enters a hall"
def promptChar1 : String := "a tall knight"
def promptChar2 : String := "a short knight"
def promptSet1 : String := "a gothic hall"
def promptSet2 : String := "a sunny beach"
def promptP1 : String := "p1"
def promptP2 : String := "p2"
def promptP3 : String := "p3"
def promptRain : String := "make it rain"
def imgOld : String := "data-img-old"
def imgNew : String := "data-img-new"
def imgOut : String := "data-img-out"
def keyK : String := "k"
def valV1 : String := "v1"
def valV2 : String := "v2"
def valV3 : String := "v3"

def jV1 : J := J.jobjCons keyK (J.js valV1) J.jobjNil
def jV2 : J := J.jobjCons keyK (J.js valV2) J.jobjNil
def jV3 : J := J.jobjCons keyK (J.js valV3) J.jobjNil

/-- C2 failing input: an Image node currently holding an image. -/
def c2Node : GNode :=
  { id := idImage1, type := .image, data := { prompt := promptP1, image := some imgOld } }

/-- C2 failing input: an update payload carrying `image: undefined/null`. -/
def c2Payload : Payload := { image := some none }

/-- C10 witness oracle: every collaborator resolves successfully. -/
def oracleW : Oracle :=
  { enrichCharacter := fun _ _ _ => .ok (some jV1),
    enrichSetting := fun _ _ => .ok (some jV2),
    fetchCharacterPassport := fun _ => .ok (some jV1),
    fetchCinematicSpec := fun _ _ _ => .ok (some jV2),
    enrichSceneDescription := fun _ => .ok jV3,
    generateSceneImage := fun _ _ => .ok imgOut,
    generateVeoPrompt := fun _ _ _ => .ok (some jV3) }

/-- C10 witness target: a bare Image node with a manual prompt. -/
def c10Target : GNode :=
  { id := idImage1, type := .image, data := { prompt := promptP1 } }

/-- C10 witness state. -/
def c10S : GState := { nodes := [c10Target], connections := [] }

/-- C7 scenario: three eligible Image nodes with manual prompts. -/
def c7Node1 : GNode := { id := idImage1, type := .image, data := { prompt := promptP1 } }

/-- C7 scenario, second node (its generation will throw). -/
def c7Node2 : GNode := { id := idImage2, type := .image, data := { prompt := promptP2 } }

/-- C7 scenario, third node. -/
def c7Node3 : GNode := { id := idImage3, type := .image, data := { prompt := promptP3 } }

/-- C7 scenario state. -/
def c7S : GState := { nodes := [c7Node1, c7Node2, c7Node3], connections := [] }

/-- Error message thrown by the failing generation. -/
def errBoom : String := "boom"

/-- C7 oracle: the image call for the second node's prompt rejects,
every other call succeeds. -/
def c7Oracle : Oracle :=
  { oracleW with
    generateSceneImage := fun p _ => if p == promptP2 then .error errBoom else .ok imgOut }

/-- A list of events whose last element writes `isLoading: false` to the
given node id. -/
def EndsWithLoadingFalse (evs : List Ev) (i : String) : Prop :=
  ∃ pre p, evs = pre ++ [Ev.wr i p] ∧ p.isLoading = some false

/-- C8 scenario: a Transformation node with `modificationPrompt` set but
no `referenceImage` and nothing feeding it. -/
def c8Trans : GNode :=
  { id := idTrans1, type := .transformation, data := { modificationPrompt := promptRain } }

/-- C8 scenario: the downstream Image node (no manual prompt, no
image). -/
def c8Img : GNode := { id := idImage1, type := .image, data := {} }

/-- C8 scenario connection (Transformation feeds the Image script
port). -/
def c8Conn : Conn :=
  { id := idConn1, fromNodeId := idTrans1, fromOutput := .pidx 0,
    toNodeId := idImage1, toInputIndex := 1 }

/-- C8 scenario state. -/
def c8S : GState := { nodes := [c8Trans, c8Img], connections := [c8Conn] }

/-- C6 scenario: a standard-mode Image node holding a generated image
and an enriched scene spec. -/
def c6Img : GNode :=
  { id := idImage2, type := .image,
    data := { image := some imgNew, enrichedSceneJson := some jV1,
              sceneEnrichmentStatus := some .success, mode := some .standard } }

/-- C6 scenario: the downstream Transformation node (stale reference
image). -/
def c6Trans : GNode :=
  { id := idTrans1, type := .transformation,
    data := { modificationPrompt := promptRain, referenceImage := some imgOld } }

/-- C6 scenario connection. -/
def c6Conn : Conn :=
  { id := idConn1, fromNodeId := idImage2, fromOutput := .pidx 0,
    toNodeId := idTrans1, toInputIndex := 0 }

/-- C6 scenario state. -/
def c6S : GState := { nodes := [c6Img, c6Trans], connections := [c6Conn] }

/-- Whether an event is the scene-spec (architect) derivation call. -/
def Ev.isSpecCall : Ev → Bool
  | .callFetchCinematicSpec _ _ _ _ => true
  | _ => false

/-- C3 scenario: a Script node with one valid scene. -/
def c3Script : GNode :=
  { id := idScript1, type := .script,
    data := { scenes := [{ id := idScene1, description := descScene1 }] } }

/-- C3 scenario: an Image node carrying chained transformation data but
whose `mode` is unset (the claim's premise — non-null
`incomingTransformationData` — holds, yet the generator keys on
`mode`). -/
def c3Img : GNode :=
  { id := idImage1, type := .image,
    data := { incomingTransformationData :=
                some { json := some jV1, referenceImage := some imgOld } } }

/-- C3 scenario connection: the Script's scene feeds the Image node's
script port. -/
def c3Conn : Conn :=
  { id := idConn1, fromNodeId := idScript1, fromOutput := .sid idScene1,
    toNodeId := idImage1, toInputIndex := 1 }

/-- C3 scenario state. -/
def c3S : GState := { nodes := [c3Script, c3Img], connections := [c3Conn] }

/-- C3 witness state: as the scenario, but with `mode = transformation`
set (the configuration the enricher actually produces). -/
def c3ImgT : GNode :=
  { id := idImage1, type := .image,
    data := { mode := some .transformation,
              incomingTransformationData :=
                some { json := some jV1, referenceImage := some imgOld } } }

/-- C3 witness state. -/
def c3ST : GState := { nodes := [c3Script, c3ImgT], connections := [c3Conn] }

/-- C9 scenario: first-connected Setting node. -/
def c9Set1 : GNode :=
  { id := idSet1, type := .setting,
    data := { prompt := promptSet1, settingPassport := some jV1 } }

/-- C9 scenario: second-connected Setting node. -/
def c9Set2 : GNode :=
  { id := idSet2, type := .setting,
    data := { prompt := promptSet2, settingPassport := some jV2 } }

/-- C9 scenario scene (no `selectedSettingId`). -/
def c9Scene : Scene := { id := idScene1, description := descScene1 }

/-- C9 scenario: the Script node holding that scene. -/
def c9Script : GNode :=
  { id := idScript1, type := .script, data := { scenes := [c9Scene] } }

/-- C9 scenario: the idle standard-mode Image node. -/
def c9Img : GNode := { id := idImage1, type := .image, data := {} }

/-- C9 connection: first Setting into the Script's setting port. -/
def c9ConnS1 : Conn :=
  { id := idConn1, fromNodeId := idSet1, fromOutput := .pidx 0,
    toNodeId := idScript1, toInputIndex := 1 }

/-- C9 connection: second Setting into the same setting port (such a
state is representable, e.g. restored from persistence). -/
def c9ConnS2 : Conn :=
  { id := idConn2, fromNodeId := idSet2, fromOutput := .pidx 0,
    toNodeId := idScript1, toInputIndex := 1 }

/-- C9 connection: the Script's scene into the Image node. -/
def c9ConnImg : Conn :=
  { id := idConn3, fromNodeId := idScript1, fromOutput := .sid idScene1,
    toNodeId := idImage1, toInputIndex := 1 }

/-- C9 scenario state (connection order is insertion order). -/
def c9S : GState :=
  { nodes := [c9Set1, c9Set2, c9Script, c9Img],
    connections := [c9ConnS1, c9ConnS2, c9ConnImg] }

/-- C4 scenario: the connected Character node, with an edited prompt. -/
def c4Char : GNode :=
  { id := idChar1, type := .character, data := { prompt := promptChar2 } }

/-- C4 scenario: a Script node whose cached character identity matches
the connected Character node. -/
def c4ScriptCached : GNode :=
  { id := idScript1, type := .script,
    data := { cachedCharacterId := some idChar1, cachedCharacterJson := some jV1 } }

/-- C4 scenario: a Script node with a cleared character cache. -/
def c4ScriptCleared : GNode :=
  { id := idScript1, type := .script, data := {} }

/-- C4 connection: Character into the Script's character port. -/
def c4Conn : Conn :=
  { id := idConn1, fromNodeId := idChar1, fromOutput := .pidx 0,
    toNodeId := idScript1, toInputIndex := 0 }

/-- C4 connected state (cache matches identity, prompt freshly edited). -/
def c4SConnected : GState :=
  { nodes := [c4Char, c4ScriptCached], connections := [c4Conn] }

/-- C4 disconnected state (cache still set). -/
def c4SDisconnected : GState :=
  { nodes := [c4Char, c4ScriptCached], connections := [] }

/-- C4 reconnected state (cache cleared by the pass on the
disconnected state). -/
def c4SReconnected : GState :=
  { nodes := [c4Char, c4ScriptCleared], connections := [c4Conn] }

/-- Node ids are pairwise distinct (holds for every state the store
itself builds, since ids come from `crypto.randomUUID()`). -/
def NodupIds (S : GState) : Prop := (S.nodes.map (fun n => n.id)).Nodup

/-- The payloads a list of events writes to a given node id, in order. -/
def payloadsFor (i : String) (evs : List Ev) : List Payload :=
  evs.filterMap (fun ev => match ev with
    | .wr j p => if j == i then some p else none
    | _ => none)

/-- Sequential application of payloads to node data. -/
def applyPs (d : NData) (ps : List Payload) : NData := ps.foldl mergeP d

/-- The node transformation a list of events induces (each node receives
exactly the payloads addressed to its id). -/
def evalNode (evs : List Ev) (n : GNode) : GNode :=
  { n with data := applyPs n.data (payloadsFor n.id evs) }

/-- Statuses that a second engine pass treats as settled: the payload
drives `sceneEnrichmentStatus` to `loading` or `success`. -/
def StatusSetP (p : Payload) : Prop :=
  p.sceneEnrichmentStatus = some (some EStatus.loading) ∨
  p.sceneEnrichmentStatus = some (some EStatus.success)

/-- C1 counterexample oracle: the cinematic-spec (architect) call
rejects. -/
def c1OracleErr : Oracle :=
  { oracleW with fetchCinematicSpec := fun _ _ _ => .error errBoom }

/-- C1 counterexample (error half): an Image node whose prior
enrichment ended with `sceneEnrichmentStatus = error`. -/
def c1ImgErr : GNode :=
  { id := idImage1, type := .image, data := { sceneEnrichmentStatus := some .error } }

/-- C1 counterexample state (error half): a Script with a valid scene
feeding the errored Image node. -/
def c1SErr : GState := { nodes := [c3Script, c1ImgErr], connections := [c3Conn] }

/-- C1 counterexample (staleness half): the upstream Image source with a
freshly generated image. -/
def c1ImgSrc : GNode := { id := idImage2, type := .image, data := { image := some imgNew } }

/-- C1 counterexample (staleness half): the middle Transformation node,
still holding the old reference image. -/
def c1Trans : GNode :=
  { id := idTrans1, type := .transformation,
    data := { transformationJson := some jV1, referenceImage := some imgOld } }

/-- C1 counterexample (staleness half): the downstream Image node, in
sync with the old reference image. -/
def c1ImgDst : GNode :=
  { id := idImage3, type := .image,
    data := { mode := some .transformation,
              incomingTransformationData :=
                some { json := some jV1, referenceImage := some imgOld },
              sceneEnrichmentStatus := some .success } }

/-- C1 chain connection: source Image into the Transformation node. -/
def c1ConnA : Conn :=
  { id := idConn1, fromNodeId := idImage2, fromOutput := .pidx 0,
    toNodeId := idTrans1, toInputIndex := 0 }

/-- C1 chain connection: Transformation node into the downstream Image. -/
def c1ConnB : Conn :=
  { id := idConn2, fromNodeId := idTrans1, fromOutput := .pidx 0,
    toNodeId := idImage3, toInputIndex := 1 }

/-- C1 counterexample state (staleness half): the three-node
transformation chain. -/
def c1SChain : GState :=
  { nodes := [c1ImgSrc, c1Trans, c1ImgDst], connections := [c1ConnA, c1ConnB] }

-- ===================================================================
-- THEOREMS
-- ===================================================================

/-- C5: starting from any connection set in which no two connections
share a `(toNodeId, toInputIndex)` target, any sequence of
`addConnection` calls preserves that uniqueness; moreover a call whose
target input is already occupied, or whose source equals its target
node, returns the connection set unchanged. -/
theorem c5_addConnection_unique (cs : List Conn) (h : UniqueTargets cs)
    (reqs : List (ConnSpec × String)) :
    UniqueTargets (reqs.foldl (fun acc r => addConnection acc r.1 r.2) cs) ∧
    (∀ (spec : ConnSpec) (newId : String),
      (spec.fromNodeId = spec.toNodeId ∨
       ∃ c ∈ cs, c.toNodeId = spec.toNodeId ∧ c.toInputIndex = spec.toInputIndex) →
      addConnection cs spec newId = cs) := by
  have step : ∀ (l : List Conn) (spec : ConnSpec) (newId : String),
      UniqueTargets l → UniqueTargets (addConnection l spec newId) := by
    intro l spec newId hl
    unfold addConnection
    split
    · exact hl
    · split
      · exact hl
      · rename_i hany
        have hforall : ∀ c ∈ l, ¬(c.toNodeId = spec.toNodeId ∧ c.toInputIndex = spec.toInputIndex) := by
          intro c hc hcontra
          apply hany
          simp only [List.any_eq_true]
          exact ⟨c, hc, by simp [hcontra.1, hcontra.2]⟩
        unfold UniqueTargets
        rw [List.pairwise_append]
        refine ⟨hl, by simp, ?_⟩
        intro a ha b hb
        simp only [List.mem_singleton] at hb
        subst hb
        simpa using hforall a ha
  constructor
  · induction reqs generalizing cs with
    | nil => exact h
    | cons r rs ih => exact ih (addConnection cs r.1 r.2) (step cs r.1 r.2 h)
  · intro spec newId hrej
    unfold addConnection
    rcases hrej with hself | ⟨c, hc, h1, h2⟩
    · simp [hself]
    · have : (cs.any fun c => c.toNodeId == spec.toNodeId && c.toInputIndex == spec.toInputIndex) = true := by
        simp only [List.any_eq_true]
        exact ⟨c, hc, by simp [h1, h2]⟩
      split
      · rfl
      · simp [this]

/-- C5 witness: at a concrete state, the hypotheses hold and the
conclusions evaluate. -/
theorem c5_addConnection_unique_witness :
    UniqueTargets ([] : List Conn) ∧
    (UniqueTargets (([({ fromNodeId := idChar1, fromOutput := .pidx 0,
                         toNodeId := idScript1, toInputIndex := 0 }, idConn1)] :
        List (ConnSpec × String)).foldl (fun acc r => addConnection acc r.1 r.2) []) ∧
     (∀ (spec : ConnSpec) (newId : String),
       (spec.fromNodeId = spec.toNodeId ∨
        ∃ c ∈ ([] : List Conn), c.toNodeId = spec.toNodeId ∧ c.toInputIndex = spec.toInputIndex) →
       addConnection [] spec newId = [])) := by
  have h0 : UniqueTargets ([] : List Conn) := List.Pairwise.nil
  exact ⟨h0, c5_addConnection_unique [] h0 _⟩

/-- C2: the image-wipe guard in `updateNodeData` detects the destructive
payload (`wouldWipeImage` is exactly the condition under which the
source logs its blocking warning) but the merge is still applied: the
node's existing image is cleared, contradicting the guarded invariant
the specification states. -/
theorem c2_updateNodeData_wipes_image :
    wouldWipeImage [c2Node] idImage1 c2Payload = true ∧
    (updateNodeData [c2Node] idImage1 c2Payload).map (fun m => m.data.image) = [none] := by
  decide

theorem endsLF_single {i : String} {p : Payload} (h : p.isLoading = some false) :
    EndsWithLoadingFalse [Ev.wr i p] i := ⟨[], p, rfl, h⟩

theorem endsLF_cons {evs : List Ev} {i : String} (e : Ev)
    (h : EndsWithLoadingFalse evs i) : EndsWithLoadingFalse (e :: evs) i := by
  obtain ⟨pre, p, heq, hp⟩ := h
  exact ⟨e :: pre, p, by simp [heq], hp⟩

theorem endsLF_append {evs : List Ev} {i : String} (l : List Ev)
    (h : EndsWithLoadingFalse evs i) : EndsWithLoadingFalse (l ++ evs) i := by
  obtain ⟨pre, p, heq, hp⟩ := h
  exact ⟨l ++ pre, p, by simp [heq], hp⟩

theorem endsLF_finishErr (i msg : String) (tr : Trace) :
    EndsWithLoadingFalse [finishErrEv i msg tr] i := endsLF_single rfl

/-- Applying events that end with an `isLoading: false` write to a node
id leaves every node with that id not loading. -/
theorem applyEvs_endsLF {S : GState} {evs : List Ev} {i : String}
    (h : EndsWithLoadingFalse evs i) :
    ∀ n ∈ (applyEvs S evs).nodes, n.id = i → n.data.isLoading = false := by
  obtain ⟨pre, p, heq, hp⟩ := h
  subst heq
  intro n hn hid
  rw [applyEvs, List.foldl_append] at hn
  simp only [List.foldl_cons, List.foldl_nil, applyEv] at hn
  simp only [updateNodeData, List.mem_map] at hn
  obtain ⟨m, _, hm⟩ := hn
  by_cases hmi : m.id == i
  · rw [if_pos hmi] at hm
    subst hm
    simp [mergeP, hp]
  · rw [if_neg (by simpa using hmi)] at hm
    subst hm
    exact absurd hid (by simpa using hmi)

theorem genTail_endsLF (O : Oracle) (S : GState) (t : GNode) (rc : Option Conn)
    (ps : String) (refs : List String) (cs : Option J) (tr : Trace) :
    EndsWithLoadingFalse (genTailEvents O S t rc ps refs cs tr) t.id := by
  unfold genTailEvents
  split
  · exact endsLF_finishErr _ _ _
  · refine endsLF_cons _ ?_
    split
    · exact endsLF_finishErr _ _ _
    · exact endsLF_single rfl

theorem videoCall_endsLF (O : Oracle) (t : GNode) (a b : Option String) (m : String) :
    EndsWithLoadingFalse (videoCallEvents O t a b m) t.id := by
  unfold videoCallEvents
  refine endsLF_cons _ ?_
  split
  · exact endsLF_single rfl
  · exact endsLF_single rfl
  · exact endsLF_single rfl

theorem specCall_endsLF (O : Oracle) (S : GState) (t : GNode) (rc : Option Conn)
    (desc : String) (pp sp : Option J) (cn sn : Option GNode) (tr : Trace) :
    EndsWithLoadingFalse (specCallEvents O S t rc desc pp sp cn sn tr) t.id := by
  unfold specCallEvents
  refine endsLF_cons _ ?_
  split
  · exact endsLF_finishErr _ _ _
  · exact endsLF_finishErr _ _ _
  · exact genTail_endsLF O S t _ _ _ _ _

theorem genImagePassport_endsLF (O : Oracle) (S : GState) (t : GNode) (rc : Option Conn)
    (desc : String) (sp : Option J) (cn sn : Option GNode) (tr : Trace) :
    EndsWithLoadingFalse (genImagePassportEvents O S t rc desc sp cn sn tr) t.id := by
  unfold genImagePassportEvents
  split
  · split
    · split
      · exact endsLF_cons _ (endsLF_finishErr _ _ _)
      · exact endsLF_append _ (specCall_endsLF O S t _ _ _ _ _ _ _)
    · exact specCall_endsLF O S t _ _ _ _ _ _ _
  · exact specCall_endsLF O S t _ _ _ _ _ _ _

theorem genImageScript_endsLF (O : Oracle) (S : GState) (t : GNode) (rc : Option Conn)
    (scon : Conn) (sn : GNode) (tr : Trace) :
    EndsWithLoadingFalse (genImageScriptEvents O S t rc scon sn tr) t.id := by
  unfold genImageScriptEvents
  split
  · exact endsLF_finishErr _ _ _
  · exact genImagePassport_endsLF O S t _ _ _ _ _ _

theorem generateImageEvents_endsLF (O : Oracle) (S : GState) (t : GNode) :
    EndsWithLoadingFalse (generateImageEvents O S t) t.id := by
  unfold generateImageEvents
  split
  · exact endsLF_cons _ (videoCall_endsLF O t _ _ _)
  · split
    · exact endsLF_cons _ (genTail_endsLF O S t _ _ _ _ _)
    · split
      · split
        · split
          · exact endsLF_cons _ (genImageScript_endsLF O S t _ _ _ _)
          · exact endsLF_cons _ (endsLF_finishErr _ _ _)
        · exact endsLF_cons _ (genTail_endsLF O S t _ _ _ _ _)
      · exact endsLF_cons _ (genTail_endsLF O S t _ _ _ _ _)

/-- C10: every terminating run of `generateImage` on an Image or Video
target, whatever the collaborators do (resolve, resolve to null, or
reject at any step), ends with `isLoading = false` written to the
target node: no completed generation attempt leaves its target stuck in
the loading state. -/
theorem c10_generateImage_clears_isLoading (O : Oracle) (S : GState) (t : GNode)
    (ht : t.type = .image ∨ t.type = .video) :
    ∀ n ∈ (generateImage O S t).nodes, n.id = t.id → n.data.isLoading = false := by
  have _ := ht
  exact applyEvs_endsLF (generateImageEvents_endsLF O S t)

/-- C10 witness: the theorem applied at a concrete Image node and
oracle. -/
theorem c10_generateImage_clears_isLoading_witness :
    (c10Target.type = .image ∨ c10Target.type = .video) ∧
    (∀ n ∈ (generateImage oracleW c10S c10Target).nodes,
        n.id = c10Target.id → n.data.isLoading = false) :=
  ⟨Or.inl rfl,
   c10_generateImage_clears_isLoading oracleW c10S c10Target (Or.inl rfl)⟩

/-- C7: in bulk generation, a rejection thrown during one Image node's
generation does not abort or skip the others: with three eligible Image
nodes where the second one's image call throws, the first and third
still receive their image results with `isLoading = false`, and the
failing node records its error locally (also with `isLoading = false`). -/
theorem c7_generateAll_failure_isolated :
    generateAllEligible c7S = c7S.nodes ∧
    ((gfind (generateAll c7Oracle c7S) idImage1).map
        (fun n => (n.data.image, n.data.isLoading, n.data.error)) =
      some (some imgOut, false, none)) ∧
    ((gfind (generateAll c7Oracle c7S) idImage2).map
        (fun n => (n.data.image, n.data.isLoading, n.data.error)) =
      some (none, false, some errBoom)) ∧
    ((gfind (generateAll c7Oracle c7S) idImage3).map
        (fun n => (n.data.image, n.data.isLoading, n.data.error)) =
      some (some imgOut, false, none)) := by
  decide

/-- Applying writes whose payloads never carry the `image` key leaves
every node's `image` unchanged. -/
theorem applyEvs_image_map (S : GState) (evs : List Ev)
    (h : ∀ i p, Ev.wr i p ∈ evs → p.image = none) :
    (applyEvs S evs).nodes.map (fun n => n.data.image) =
      S.nodes.map (fun n => n.data.image) := by
  induction evs generalizing S with
  | nil => rfl
  | cons ev evs ih =>
    rw [applyEvs, List.foldl_cons, ← applyEvs]
    rw [ih _ (fun i p hip => h i p (List.mem_cons_of_mem _ hip))]
    cases ev with
    | wr i p =>
      have hp : p.image = none := h i p (List.mem_cons_self _ _)
      simp only [applyEv, updateNodeData, List.map_map, Function.comp]
      apply List.map_congr_left
      intro n _
      dsimp only [Function.comp_def]
      by_cases hni : (n.id == i) = true
      · rw [if_pos hni]
        simp [mergeP, hp]
      · rw [if_neg hni]
    | callEnrichCharacter a b c d => rfl
    | callEnrichSetting a b c => rfl
    | callFetchCharacterPassport a b => rfl
    | callFetchCinematicSpec a b c d => rfl
    | callEnrichSceneDescription a b => rfl
    | callGenerateSceneImage a b c => rfl
    | callGenerateVeoPrompt a b c d => rfl

/-- C8 counterexample: in the wired generator the failure carries
`stepFailed = traversal` but its message does not cite the reference
image (it asks for a Script connection or an uploaded image); in the
legacy generator the message does cite the missing reference input but
`stepFailed` is `architect_json`, not `traversal`.  Either way the
claim, as stated, is false at this concrete input. -/
theorem c8_missing_reference_counterexample :
    ((gfind (generateImage oracleW c8S c8Img) idImage1).map
        (fun n => (n.data.error, n.data.debugTrace.map (fun tr => tr.stepFailed), n.data.image)) =
      some (some SC.msgConnectScript, some (some .traversal), none)) ∧
    ¬(SC.refWords.toList <:+: SC.msgConnectScript.toList) ∧
    ((gfind (generateImageLegacy oracleW c8S c8Img) idImage1).map
        (fun n => (n.data.error, n.data.debugTrace.map (fun tr => tr.stepFailed), n.data.image)) =
      some (some SC.msgNeedsRefInput, some (some .architectJson), none)) ∧
    (SC.refWords.toList <:+: SC.msgNeedsRefInput.toList) := by
  decide

/-- C8 amended: for a Transformation node feeding an Image node that has
no chained transformation data, no manual prompt and no image, the wired
generator fails during traversal (`stepFailed = traversal`) with the
input error asking for a Script connection or an uploaded image — the
reference image is not specifically cited — and leaves every node's
`image` unchanged; the legacy generator cites the missing reference
input but only after the architect stage began
(`stepFailed = architect_json`), likewise leaving images unchanged. -/
theorem c8_transformation_input_error_amended :
    (∀ (O : Oracle) (S : GState) (i tn : GNode),
      i.type = .image →
      (i.data.mode == some NMode.transformation && truthyOJ (incomingJsonOf i)) = false →
      connSource S (scriptConnOf S i) = some tn →
      tn.type = .transformation →
      i.data.prompt = SC.empty →
      i.data.image = none →
      generateImageEvents O S i = [imgW0 i, finishErrEv i.id SC.msgConnectScript (tr0Of O)] ∧
      (tr0Of O).stepFailed = some .traversal ∧
      (generateImage O S i).nodes.map (fun n => n.data.image) =
        S.nodes.map (fun n => n.data.image)) ∧
    (∀ (O : Oracle) (S : GState) (i tn : GNode) (c : Conn) (tj : J),
      S.connections.find? (fun cc => cc.toNodeId == i.id) = some c →
      gfind S c.fromNodeId = some tn →
      tn.type = .transformation →
      truthyS tn.data.modificationPrompt = true →
      tn.data.transformationJson = none →
      S.connections.find? (fun cc => cc.toNodeId == tn.id) = none →
      O.enrichSceneDescription tn.data.modificationPrompt = .ok tj →
      generateImageLegacyEvents O S i =
        [imgW0 i,
         Ev.callEnrichSceneDescription tn.id tn.data.modificationPrompt,
         Ev.wr tn.id { transformationJson := some (some tj) },
         finishErrEv i.id SC.msgNeedsRefInput
           { legacyTrT O tn.data.modificationPrompt with architectOutput := some tj }] ∧
      ({ legacyTrT O tn.data.modificationPrompt with
         architectOutput := some tj } : Trace).stepFailed = some .architectJson ∧
      (generateImageLegacy O S i).nodes.map (fun n => n.data.image) =
        S.nodes.map (fun n => n.data.image)) := by
  constructor
  · intro O S i tn hv hP1 hconn htn hprompt himg
    have hvid : (i.type == NType.video) = false := by rw [hv]; rfl
    have hscript : (tn.type == NType.script) = false := by rw [htn]; rfl
    have hev : generateImageEvents O S i =
        [imgW0 i, finishErrEv i.id SC.msgConnectScript (tr0Of O)] := by
      unfold generateImageEvents
      rw [hvid, hP1, hconn]
      simp only [Bool.false_eq_true, if_false]
      rw [hscript]
      simp only [Bool.false_eq_true, if_false]
      unfold genTailEvents
      rw [hprompt, himg]
      rfl
    refine ⟨hev, rfl, ?_⟩
    unfold generateImage
    rw [hev]
    apply applyEvs_image_map
    intro j p hjp
    simp only [imgW0, finishErrEv, List.mem_cons, List.not_mem_nil, or_false,
      Ev.wr.injEq] at hjp
    rcases hjp with ⟨h1, h2⟩ | ⟨h1, h2⟩ <;> rw [h2]
  · intro O S i tn c tj hconn hsrc htn hmp htj hup horacle
    have hscript : (tn.type == NType.script) = false := by rw [htn]; rfl
    have htrans : (tn.type == NType.transformation) = true := by rw [htn]; rfl
    have hev : generateImageLegacyEvents O S i =
        [imgW0 i,
         Ev.callEnrichSceneDescription tn.id tn.data.modificationPrompt,
         Ev.wr tn.id { transformationJson := some (some tj) },
         finishErrEv i.id SC.msgNeedsRefInput
           { legacyTrT O tn.data.modificationPrompt with architectOutput := some tj }] := by
      unfold generateImageLegacyEvents
      rw [hconn]
      dsimp only
      rw [hsrc]
      dsimp only
      rw [hscript]
      simp only [Bool.false_eq_true, if_false]
      rw [htrans]
      simp only [if_true]
      rw [hmp]
      simp only [Bool.not_true, Bool.false_eq_true, if_false]
      rw [htj]
      dsimp only
      unfold legacyTransformFetch
      rw [horacle]
      dsimp only
      unfold legacyTransformTail
      rw [hup]
      rfl
    refine ⟨hev, rfl, ?_⟩
    unfold generateImageLegacy
    rw [hev]
    apply applyEvs_image_map
    intro j p hjp
    simp only [imgW0, finishErrEv, List.mem_cons, List.not_mem_nil, or_false,
      Ev.wr.injEq, reduceCtorEq, false_or] at hjp
    rcases hjp with ⟨h1, h2⟩ | ⟨h1, h2⟩ | ⟨h1, h2⟩ <;> rw [h2]

/-- C6 counterexample: on a state where an Image node with a generated
image and an enriched scene spec feeds a Transformation node, the
enricher pass performs exactly one write — the `referenceImage` sync —
and the Transformation node's resulting data is its old data with only
`referenceImage` replaced: no field of it receives the source's active
spec JSON (the embedded `TransformationData`, like the source type, has
no `sourceJson` field at all), refuting the claimed `sourceJson`
propagation. -/
theorem c6_no_sourceJson_counterexample :
    enricherEvents oracleW c6S = [Ev.wr idTrans1 { referenceImage := some (some imgNew) }] ∧
    ((gfind (applyEvs c6S (enricherEvents oracleW c6S)) idTrans1).map (fun n => n.data) =
      some { modificationPrompt := promptRain, referenceImage := some imgNew }) := by
  decide

/-- C6 amended: for a connection from an Image node to a Transformation
node, the enricher pass's processing of that connection consists solely
of the `referenceImage` sync: when the source holds a truthy image that
differs from the target's current `referenceImage` it writes exactly
`referenceImage := image` (a direct string comparison guard, trivially
equivalent to serialized comparison for strings), and when the value is
unchanged or the source image absent it writes nothing; no `sourceJson`
is propagated — no such field exists. -/
theorem c6_reference_image_sync_amended (O : Oracle) (S : GState) (c : Conn)
    (target source : GNode)
    (h1 : gfind S c.toNodeId = some target) (h2 : gfind S c.fromNodeId = some source)
    (h3 : target.type = .transformation) (h4 : source.type = .image) :
    enrichConnEvents O S c = rule2Events target source ∧
    (truthyOS source.data.image = true → target.data.referenceImage ≠ source.data.image →
      rule2Events target source = [Ev.wr target.id { referenceImage := some source.data.image }]) ∧
    (target.data.referenceImage = source.data.image ∨ truthyOS source.data.image = false →
      rule2Events target source = []) := by
  have himg : (target.type == NType.image) = false := by rw [h3]; rfl
  have htr : (target.type == NType.transformation) = true := by rw [h3]; rfl
  have hsrc : (source.type == NType.image) = true := by rw [h4]; rfl
  have hstr : (source.type == NType.transformation) = false := by rw [h4]; rfl
  refine ⟨?_, ?_, ?_⟩
  · unfold enrichConnEvents
    rw [h1, h2]
    dsimp only
    unfold ruleBEvents rule3Events
    rw [himg, hstr]
    simp
  · intro htruthy hdiff
    unfold rule2Events
    rw [htr, hsrc]
    simp only [Bool.and_self, if_true]
    rw [htruthy]
    have : (target.data.referenceImage != source.data.image) = true := by
      simpa using hdiff
    rw [this]
    rfl
  · intro hcase
    unfold rule2Events
    rw [htr, hsrc]
    simp only [Bool.and_self, if_true]
    rcases hcase with heq | hfalsy
    · have : (target.data.referenceImage != source.data.image) = false := by
        simp [heq]
      simp [this]
    · simp [hfalsy]

/-- C8 witness: the amended theorem applied at the concrete Scenario-B
state, all hypotheses discharged. -/
theorem c8_transformation_input_error_witness :
    (generateImageEvents oracleW c8S c8Img =
      [imgW0 c8Img, finishErrEv c8Img.id SC.msgConnectScript (tr0Of oracleW)]) ∧
    (generateImageLegacyEvents oracleW c8S c8Img =
      [imgW0 c8Img,
       Ev.callEnrichSceneDescription c8Trans.id c8Trans.data.modificationPrompt,
       Ev.wr c8Trans.id { transformationJson := some (some jV3) },
       finishErrEv c8Img.id SC.msgNeedsRefInput
         { legacyTrT oracleW c8Trans.data.modificationPrompt with
           architectOutput := some jV3 }]) :=
  ⟨(c8_transformation_input_error_amended.1 oracleW c8S c8Img c8Trans rfl (by decide)
      (by decide) rfl rfl rfl).1,
   (c8_transformation_input_error_amended.2 oracleW c8S c8Img c8Trans c8Conn jV3
      (by decide) (by decide) rfl (by decide) rfl (by decide) rfl).1⟩

/-- C6 witness: the amended theorem applied at the concrete state, with
the propagation condition discharged. -/
theorem c6_reference_image_sync_witness :
    enrichConnEvents oracleW c6S c6Conn = rule2Events c6Trans c6Img ∧
    rule2Events c6Trans c6Img =
      [Ev.wr c6Trans.id { referenceImage := some c6Img.data.image }] :=
  ⟨(c6_reference_image_sync_amended oracleW c6S c6Conn c6Trans c6Img
      (by decide) (by decide) rfl rfl).1,
   (c6_reference_image_sync_amended oracleW c6S c6Conn c6Trans c6Img
      (by decide) (by decide) rfl rfl).2.1 (by decide) (by decide)⟩

/-- C3 counterexample: an Image node with a valid Script connection and
non-null `incomingTransformationData` (carrying a json and a reference
image), but with `mode` unset: triggering generation issues the
script-derived cinematic-spec call and uses the script-derived spec —
not the transformation json — as the prompt.  The generator keys on
`mode === transformation`, not on `incomingTransformationData`. -/
theorem c3_transformation_precedence_counterexample :
    c3Img.data.incomingTransformationData ≠ none ∧
    callsOf (generateImageEvents oracleW c3S c3Img) =
      [Ev.callFetchCinematicSpec idImage1 descScene1 none none,
       Ev.callGenerateSceneImage idImage1 (J.ser2 jV2) []] ∧
    ((gfind (generateImage oracleW c3S c3Img) idImage1).map (fun n => n.data.prompt) =
      some (J.ser2 jV2)) ∧
    J.ser2 jV2 ≠ J.ser2 jV1 := by
  decide

theorem genTail_noSpec (O : Oracle) (S : GState) (t : GNode) (rc : Option Conn)
    (ps : String) (refs : List String) (cs : Option J) (tr : Trace) :
    ∀ ev ∈ genTailEvents O S t rc ps refs cs tr, ev.isSpecCall = false := by
  unfold genTailEvents
  split
  · intro ev hev
    simp only [List.mem_singleton] at hev
    subst hev; rfl
  · intro ev hev
    simp only [List.mem_cons] at hev
    rcases hev with rfl | hev
    · rfl
    · split at hev <;>
      · simp only [List.mem_singleton] at hev
        subst hev; rfl

/-- C3 amended: an Image node whose `mode` is `transformation` and whose
`incomingTransformationData` carries a (truthy) json resolves its
generation prompt by serializing that json — the run is the initial
write followed by the terminal stage on that serialized prompt, and no
scene-spec derivation call is ever issued for it; correspondingly, the
Script-to-Image enrichment rule produces no events for any Image target
in `transformation` mode. -/
theorem c3_transformation_precedence_amended :
    (∀ (O : Oracle) (S : GState) (t : GNode) (td : TData) (j : J),
      t.type = .image →
      t.data.mode = some .transformation →
      t.data.incomingTransformationData = some td →
      td.json = some j →
      truthyOJ (some j) = true →
      generateImageEvents O S t =
        imgW0 t :: genTailEvents O S t (refConnOf S t) (J.ser2 j)
          (tdRefList (incomingRefOf t)) (some j)
          { tr0Of O with architectOutput := some j, inputsSceneText := SC.transformBased } ∧
      (∀ ev ∈ generateImageEvents O S t, ev.isSpecCall = false)) ∧
    (∀ (O : Oracle) (S : GState) (c : Conn) (target source : GNode),
      target.data.mode = some .transformation →
      ruleBEvents O S c target source = []) := by
  constructor
  · intro O S t td j hty hmode htd hj htr
    have hvid : (t.type == NType.video) = false := by rw [hty]; rfl
    have hinc : incomingJsonOf t = some j := by
      rw [incomingJsonOf, htd]
      simpa using hj
    have hcond : (t.data.mode == some NMode.transformation && truthyOJ (incomingJsonOf t)) = true := by
      rw [hmode, hinc]
      simpa using htr
    have hev : generateImageEvents O S t =
        imgW0 t :: genTailEvents O S t (refConnOf S t) (J.ser2 j)
          (tdRefList (incomingRefOf t)) (some j)
          { tr0Of O with architectOutput := some j, inputsSceneText := SC.transformBased } := by
      unfold generateImageEvents
      rw [hvid]
      simp only [Bool.false_eq_true, if_false]
      rw [hcond]
      simp only [if_true, hinc]
      rfl
    refine ⟨hev, ?_⟩
    rw [hev]
    intro ev hev2
    simp only [List.mem_cons] at hev2
    rcases hev2 with rfl | hev2
    · rfl
    · exact genTail_noSpec O S t _ _ _ _ _ ev hev2
  · intro O S c target source hmode
    unfold ruleBEvents
    split
    · rfl
    · rw [hmode]
      rfl

/-- C3 witness: the amended theorem applied at the concrete
`mode = transformation` state and at a concrete Rule-B connection. -/
theorem c3_transformation_precedence_witness :
    (generateImageEvents oracleW c3ST c3ImgT =
      imgW0 c3ImgT :: genTailEvents oracleW c3ST c3ImgT (refConnOf c3ST c3ImgT) (J.ser2 jV1)
        (tdRefList (incomingRefOf c3ImgT)) (some jV1)
        { tr0Of oracleW with architectOutput := some jV1,
                             inputsSceneText := SC.transformBased }) ∧
    ruleBEvents oracleW c3ST c3Conn c3ImgT c3Script = [] :=
  ⟨(c3_transformation_precedence_amended.1 oracleW c3ST c3ImgT
      { json := some jV1, referenceImage := some imgOld } jV1 rfl rfl rfl rfl rfl).1,
   c3_transformation_precedence_amended.2 oracleW c3ST c3Conn c3ImgT c3Script rfl⟩

/-- C9: with two Setting nodes connected to a Script's setting port (in
insertion order) and a scene whose `selectedSettingId` matches none of
them (absent or stale), both the enricher's Rule B and the generation
traversal resolve the Setting context to the first-connected Setting:
the fallback picks the head of the connected list, and the cinematic
spec call of each pass receives the first Setting's passport. -/
theorem c9_first_connected_setting (O : Oracle) (S : GState) (c : Conn)
    (t sn setA setB : GNode) (scene : Scene)
    (hts : t.type = .image) (hsns : sn.type = .script)
    (hconn : scriptConnOf S t = some c)
    (hfrom : gfind S c.fromNodeId = some sn)
    (hscene : sceneFromOutput sn.data.scenes c.fromOutput = some scene)
    (hdesc : truthyS scene.description = true)
    (hmode : (t.data.mode == some NMode.transformation) = false)
    (hguard : (truthyOJ t.data.enrichedSceneJson ||
               t.data.sceneEnrichmentStatus == some EStatus.loading ||
               t.data.sceneEnrichmentStatus == some EStatus.success) = false)
    (hchar : S.connections.find? (fun cc => cc.toNodeId == sn.id && cc.toInputIndex == 0) = none)
    (hsettings : ((S.connections.filter
        (fun cc => cc.toNodeId == sn.id && cc.toInputIndex == 1)).map
        (fun cc => gfind S cc.fromNodeId)).reduceOption = [setA, setB])
    (hsel : chooseSelected [setA, setB] scene.selectedSettingId = none) :
    orElseHead (chooseSelected [setA, setB] scene.selectedSettingId) [setA, setB] = some setA ∧
    ruleBEvents O S c t sn =
      Ev.wr t.id { sceneEnrichmentStatus := some (some .loading) } ::
        ruleBSpecEvents O t.id scene.description none (settingPassportEnr (some setA)) ∧
    generateImageEvents O S t =
      imgW0 t ::
        specCallEvents O S t (refConnOf S t) scene.description none
          (settingPassportOf (some setA)) none (some setA)
          { tr0Of O with inputsSceneText := scene.description } := by
  have hhead : orElseHead (chooseSelected [setA, setB] scene.selectedSettingId) [setA, setB] =
      some setA := by
    rw [hsel]
    rfl
  have htypes : (!(t.type == NType.image && sn.type == NType.script)) = false := by
    rw [hts, hsns]
    rfl
  have hcharnode : connSource S (S.connections.find?
      (fun cc => cc.toNodeId == sn.id && cc.toInputIndex == 0)) = none := by
    rw [hchar]
    rfl
  refine ⟨hhead, ?_, ?_⟩
  · unfold ruleBEvents
    rw [htypes]
    simp only [Bool.false_eq_true, if_false]
    rw [hmode]
    simp only [Bool.false_eq_true, if_false]
    rw [hguard]
    simp only [Bool.false_eq_true, if_false]
    rw [hscene]
    have : truthyS (sceneDescOf (some scene)) = true := hdesc
    rw [show sceneDescOf (some scene) = scene.description from rfl, hdesc]
    simp only [Bool.not_true, Bool.false_eq_true, if_false]
    rw [hsettings, hcharnode]
    rw [show sceneSelOf (some scene) = scene.selectedSettingId from rfl, hhead]
    unfold ruleBFireEvents
    rfl
  · have hvid : (t.type == NType.video) = false := by rw [hts]; rfl
    have hP1 : (t.data.mode == some NMode.transformation &&
        truthyOJ (incomingJsonOf t)) = false := by
      rw [hmode]
      rfl
    have hin : connSource S (scriptConnOf S t) = some sn := by
      rw [hconn]
      exact hfrom
    unfold generateImageEvents
    rw [hvid]
    simp only [Bool.false_eq_true, if_false]
    rw [hP1]
    simp only [Bool.false_eq_true, if_false]
    rw [hin]
    dsimp only
    rw [show (sn.type == NType.script) = true from by rw [hsns]; rfl]
    simp only [if_true]
    rw [hconn]
    dsimp only
    unfold genImageScriptEvents
    rw [hscene]
    dsimp only
    rw [hsettings, hcharnode, hhead]
    unfold genImagePassportEvents
    rfl

/-- C9 witness: the theorem applied at the concrete two-Setting state. -/
theorem c9_first_connected_setting_witness :
    orElseHead (chooseSelected [c9Set1, c9Set2] c9Scene.selectedSettingId) [c9Set1, c9Set2] =
      some c9Set1 ∧
    ruleBEvents oracleW c9S c9ConnImg c9Img c9Script =
      Ev.wr c9Img.id { sceneEnrichmentStatus := some (some .loading) } ::
        ruleBSpecEvents oracleW c9Img.id c9Scene.description none
          (settingPassportEnr (some c9Set1)) ∧
    generateImageEvents oracleW c9S c9Img =
      imgW0 c9Img ::
        specCallEvents oracleW c9S c9Img (refConnOf c9S c9Img) c9Scene.description none
          (settingPassportOf (some c9Set1)) none (some c9Set1)
          { tr0Of oracleW with inputsSceneText := c9Scene.description } :=
  c9_first_connected_setting oracleW c9S c9ConnImg c9Img c9Script c9Set1 c9Set2 c9Scene
    rfl rfl (by decide) (by decide) (by decide) (by decide) rfl (by decide) (by decide)
    (by decide) (by decide)

/-- C4: Rule A of `useSmartConnections` keys on connection identity, not
content.  (i) While the Script's `cachedCharacterId` equals the
connected Character's id, the character half of the pass produces no
events at all — in particular, editing the Character's `prompt` (any
data) does not re-trigger enrichment.  (ii) On disconnection it eagerly
emits exactly the write clearing `cachedCharacterId`,
`cachedCharacterJson` and the loading flag (whose merge indeed clears
those three fields).  (iii) After the cache is cleared, reconnecting the
same Character re-triggers enrichment: the pass sets the loading flag
synchronously and issues the `enrichCharacter` call. -/
theorem c4_identity_gated_rederivation :
    (∀ (O : Oracle) (S : GState) (n ch : GNode) (cc : Conn),
      S.connections.find? (fun c => c.toNodeId == n.id && c.toInputIndex == 0) = some cc →
      gfind S cc.fromNodeId = some ch →
      n.data.cachedCharacterId = some ch.id →
      smartCharEvents O S n = []) ∧
    (∀ (O : Oracle) (S : GState) (n : GNode),
      S.connections.find? (fun c => c.toNodeId == n.id && c.toInputIndex == 0) = none →
      truthyOS n.data.cachedCharacterId = true →
      smartCharEvents O S n =
        [Ev.wr n.id { cachedCharacterId := some none, cachedCharacterJson := some none,
                      isCharacterLoading := some false }] ∧
      (mergeP n.data { cachedCharacterId := some none, cachedCharacterJson := some none,
                       isCharacterLoading := some false }).cachedCharacterId = none ∧
      (mergeP n.data { cachedCharacterId := some none, cachedCharacterJson := some none,
                       isCharacterLoading := some false }).cachedCharacterJson = none ∧
      (mergeP n.data { cachedCharacterId := some none, cachedCharacterJson := some none,
                       isCharacterLoading := some false }).isCharacterLoading = false) ∧
    (∀ (O : Oracle) (S : GState) (n ch : GNode) (cc : Conn),
      S.connections.find? (fun c => c.toNodeId == n.id && c.toInputIndex == 0) = some cc →
      gfind S cc.fromNodeId = some ch →
      n.data.cachedCharacterId = none →
      n.data.isCharacterLoading = false →
      (smartCharEvents O S n).take 2 =
        [Ev.wr n.id { isCharacterLoading := some true },
         Ev.callEnrichCharacter n.id SC.mainCharacter ch.data.prompt ch.data.image]) := by
  refine ⟨?_, ?_, ?_⟩
  · intro O S n ch cc hfind hch hcache
    unfold smartCharEvents
    rw [hfind]
    dsimp only
    rw [hch]
    dsimp only
    have : (n.data.cachedCharacterId != some ch.id && !n.data.isCharacterLoading) = false := by
      rw [hcache]
      simp
    rw [this]
    rfl
  · intro O S n hfind htruthy
    refine ⟨?_, rfl, rfl, rfl⟩
    unfold smartCharEvents
    rw [hfind]
    dsimp only
    rw [htruthy]
    rfl
  · intro O S n ch cc hfind hch hcache hload
    unfold smartCharEvents
    rw [hfind]
    dsimp only
    rw [hch]
    dsimp only
    have : (n.data.cachedCharacterId != some ch.id && !n.data.isCharacterLoading) = true := by
      rw [hcache, hload]
      rfl
    rw [this]
    rfl

/-- C4 witness: the three parts applied at concrete states — the
connected-and-cached state with an edited prompt is silent, the
disconnected state emits exactly the clearing write, and the
reconnected state fires the enrichment call again. -/
theorem c4_identity_gated_rederivation_witness :
    smartCharEvents oracleW c4SConnected c4ScriptCached = [] ∧
    smartCharEvents oracleW c4SDisconnected c4ScriptCached =
      [Ev.wr c4ScriptCached.id
        { cachedCharacterId := some none, cachedCharacterJson := some none,
          isCharacterLoading := some false }] ∧
    (smartCharEvents oracleW c4SReconnected c4ScriptCleared).take 2 =
      [Ev.wr c4ScriptCleared.id { isCharacterLoading := some true },
       Ev.callEnrichCharacter c4ScriptCleared.id SC.mainCharacter
         c4Char.data.prompt c4Char.data.image] :=
  ⟨c4_identity_gated_rederivation.1 oracleW c4SConnected c4ScriptCached c4Char c4Conn
     (by decide) (by decide) rfl,
   (c4_identity_gated_rederivation.2.1 oracleW c4SDisconnected c4ScriptCached
     (by decide) (by decide)).1,
   c4_identity_gated_rederivation.2.2 oracleW c4SReconnected c4ScriptCleared c4Char c4Conn
     (by decide) (by decide) rfl rfl⟩

theorem applyEvs_connections (S : GState) (evs : List Ev) :
    (applyEvs S evs).connections = S.connections := by
  induction evs generalizing S with
  | nil => rfl
  | cons ev evs ih =>
    rw [applyEvs, List.foldl_cons, ← applyEvs, ih]
    cases ev <;> rfl

theorem payloadsFor_append (i : String) (a b : List Ev) :
    payloadsFor i (a ++ b) = payloadsFor i a ++ payloadsFor i b := by
  simp [payloadsFor, List.filterMap_append]

theorem applyPs_append (d : NData) (a b : List Payload) :
    applyPs d (a ++ b) = applyPs (applyPs d a) b := by
  simp [applyPs, List.foldl_append]

/-- Structure of the store after applying events: every node's data is
the in-order merge of the payloads addressed to its id. -/
theorem applyEvs_nodes (S : GState) (evs : List Ev) :
    (applyEvs S evs).nodes = S.nodes.map (evalNode evs) := by
  induction evs generalizing S with
  | nil =>
    simp only [applyEvs, List.foldl_nil, evalNode, payloadsFor, List.filterMap_nil, applyPs,
      List.foldl_nil]
    exact (List.map_id S.nodes).symm
  | cons ev evs ih =>
    rw [applyEvs, List.foldl_cons, ← applyEvs, ih]
    cases ev with
    | wr j p =>
      simp only [applyEv, updateNodeData, List.map_map]
      apply List.map_congr_left
      intro n _
      simp only [Function.comp_apply, evalNode, payloadsFor, List.filterMap_cons]
      by_cases hn : n.id = j
      · subst hn
        simp only [beq_self_eq_true, ite_true]
        rfl
      · have h1 : (n.id == j) = false := by simpa using hn
        have h2 : (j == n.id) = false := by simpa using Ne.symm hn
        simp only [h1, h2, Bool.false_eq_true, ite_false]
    | callEnrichCharacter a b c d => rfl
    | callEnrichSetting a b c => rfl
    | callFetchCharacterPassport a b => rfl
    | callFetchCinematicSpec a b c d => rfl
    | callEnrichSceneDescription a b => rfl
    | callGenerateSceneImage a b c => rfl
    | callGenerateVeoPrompt a b c d => rfl

theorem gfind_id {S : GState} {x : String} {n : GNode} (h : gfind S x = some n) : n.id = x := by
  have := List.find?_some h
  simpa using this

theorem gfind_mem {S : GState} {x : String} {n : GNode} (h : gfind S x = some n) :
    n ∈ S.nodes := List.mem_of_find?_eq_some h

theorem find?_id_nodup {l : List GNode} (hnd : (l.map (fun n => n.id)).Nodup) {n : GNode}
    (hn : n ∈ l) : l.find? (fun m => m.id == n.id) = some n := by
  induction l with
  | nil => cases hn
  | cons a l ih =>
    rcases List.mem_cons.mp hn with rfl | hn2
    · simp [List.find?_cons]
    · have hane : ¬(a.id = n.id) := by
        intro he
        apply (List.nodup_cons.mp hnd).1
        show a.id ∈ List.map (fun n => n.id) l
        rw [he]
        exact List.mem_map_of_mem _ hn2
      rw [List.find?_cons_of_neg _ (by simpa using hane)]
      exact ih (List.nodup_cons.mp hnd).2 hn2

theorem gfind_self {S : GState} (hnd : NodupIds S) {n : GNode} (hn : n ∈ S.nodes) :
    gfind S n.id = some n := find?_id_nodup hnd hn

theorem gfind_applyEvs (S : GState) (evs : List Ev) (i : String) :
    gfind (applyEvs S evs) i = (gfind S i).map (evalNode evs) := by
  unfold gfind
  rw [applyEvs_nodes, List.find?_map]
  rfl

theorem payloadsFor_eq_nil {i : String} {evs : List Ev}
    (h : ∀ j p, Ev.wr j p ∈ evs → j ≠ i) : payloadsFor i evs = [] := by
  induction evs with
  | nil => rfl
  | cons ev evs ih =>
    have htail : payloadsFor i evs = [] :=
      ih (fun j p hjp => h j p (List.mem_cons_of_mem _ hjp))
    cases ev with
    | wr j p =>
      have : (j == i) = false := by
        simpa using h j p (List.mem_cons_self _ _)
      simp only [payloadsFor, List.filterMap_cons, this, Bool.false_eq_true, ite_false]
      exact htail
    | callEnrichCharacter a b c d => simpa [payloadsFor, List.filterMap_cons] using htail
    | callEnrichSetting a b c => simpa [payloadsFor, List.filterMap_cons] using htail
    | callFetchCharacterPassport a b => simpa [payloadsFor, List.filterMap_cons] using htail
    | callFetchCinematicSpec a b c d => simpa [payloadsFor, List.filterMap_cons] using htail
    | callEnrichSceneDescription a b => simpa [payloadsFor, List.filterMap_cons] using htail
    | callGenerateSceneImage a b c => simpa [payloadsFor, List.filterMap_cons] using htail
    | callGenerateVeoPrompt a b c d => simpa [payloadsFor, List.filterMap_cons] using htail

theorem payloadsFor_mem {i : String} {p : Payload} {evs : List Ev}
    (h : Ev.wr i p ∈ evs) : p ∈ payloadsFor i evs := by
  induction evs with
  | nil => cases h
  | cons ev evs ih =>
    rcases List.mem_cons.mp h with rfl | h2
    · simp [payloadsFor, List.filterMap_cons]
    · have := ih h2
      cases ev with
      | wr j q =>
        by_cases hji : (j == i) = true
        · simp only [payloadsFor, List.filterMap_cons, hji, ite_true]
          exact List.mem_cons_of_mem _ this
        · simp only [payloadsFor, List.filterMap_cons, hji, Bool.false_eq_true, ite_false]
          exact this
      | callEnrichCharacter a b c d => simpa [payloadsFor, List.filterMap_cons] using this
      | callEnrichSetting a b c => simpa [payloadsFor, List.filterMap_cons] using this
      | callFetchCharacterPassport a b => simpa [payloadsFor, List.filterMap_cons] using this
      | callFetchCinematicSpec a b c d => simpa [payloadsFor, List.filterMap_cons] using this
      | callEnrichSceneDescription a b => simpa [payloadsFor, List.filterMap_cons] using this
      | callGenerateSceneImage a b c => simpa [payloadsFor, List.filterMap_cons] using this
      | callGenerateVeoPrompt a b c d => simpa [payloadsFor, List.filterMap_cons] using this

theorem mem_of_payloadsFor {i : String} {p : Payload} {evs : List Ev}
    (h : p ∈ payloadsFor i evs) : Ev.wr i p ∈ evs := by
  induction evs with
  | nil => cases h
  | cons ev evs ih =>
    cases ev with
    | wr j q =>
      by_cases hji : (j == i) = true
      · simp only [payloadsFor, List.filterMap_cons, hji, ite_true] at h
        rcases List.mem_cons.mp h with rfl | h2
        · have : j = i := by simpa using hji
          subst this
          exact List.mem_cons_self _ _
        · exact List.mem_cons_of_mem _ (ih h2)
      · simp only [payloadsFor, List.filterMap_cons, hji, Bool.false_eq_true, ite_false] at h
        exact List.mem_cons_of_mem _ (ih h)
    | callEnrichCharacter a b c d =>
        exact List.mem_cons_of_mem _ (ih (by simpa [payloadsFor, List.filterMap_cons] using h))
    | callEnrichSetting a b c =>
        exact List.mem_cons_of_mem _ (ih (by simpa [payloadsFor, List.filterMap_cons] using h))
    | callFetchCharacterPassport a b =>
        exact List.mem_cons_of_mem _ (ih (by simpa [payloadsFor, List.filterMap_cons] using h))
    | callFetchCinematicSpec a b c d =>
        exact List.mem_cons_of_mem _ (ih (by simpa [payloadsFor, List.filterMap_cons] using h))
    | callEnrichSceneDescription a b =>
        exact List.mem_cons_of_mem _ (ih (by simpa [payloadsFor, List.filterMap_cons] using h))
    | callGenerateSceneImage a b c =>
        exact List.mem_cons_of_mem _ (ih (by simpa [payloadsFor, List.filterMap_cons] using h))
    | callGenerateVeoPrompt a b c d =>
        exact List.mem_cons_of_mem _ (ih (by simpa [payloadsFor, List.filterMap_cons] using h))

theorem payloadsFor_bind_single {l : List GNode} {g : GNode → List Ev} {n : GNode}
    (hnd : (l.map (fun m => m.id)).Nodup) (hn : n ∈ l)
    (hg : ∀ m ∈ l, ∀ j p, Ev.wr j p ∈ g m → j = m.id) :
    payloadsFor n.id (l.flatMap g) = payloadsFor n.id (g n) := by
  induction l with
  | nil => cases hn
  | cons a l ih =>
    rw [List.flatMap_cons, payloadsFor_append]
    rcases List.mem_cons.mp hn with rfl | hn2
    · have hrest : payloadsFor n.id (l.flatMap g) = [] := by
        apply payloadsFor_eq_nil
        intro j p hjp
        obtain ⟨m, hm, hmem⟩ := List.mem_flatMap.mp hjp
        rw [hg m (List.mem_cons_of_mem _ hm) j p hmem]
        intro he
        apply (List.nodup_cons.mp hnd).1
        show n.id ∈ List.map (fun m => m.id) l
        rw [← he]
        exact List.mem_map_of_mem _ hm
      rw [hrest, List.append_nil]
    · have hhead : payloadsFor n.id (g a) = [] := by
        apply payloadsFor_eq_nil
        intro j p hjp
        rw [hg a (List.mem_cons_self _ _) j p hjp]
        intro he
        apply (List.nodup_cons.mp hnd).1
        show a.id ∈ List.map (fun m => m.id) l
        rw [he]
        exact List.mem_map_of_mem _ hn2
      rw [hhead, List.nil_append]
      exact ih (List.nodup_cons.mp hnd).2 hn2 (fun m hm => hg m (List.mem_cons_of_mem _ hm))

theorem smartChar_targets (O : Oracle) (S : GState) (n : GNode) :
    ∀ j p, Ev.wr j p ∈ smartCharEvents O S n → j = n.id := by
  intro j p h
  unfold smartCharEvents at h
  split at h
  · split at h
    · split at h
      · simp only [List.mem_cons] at h
        rcases h with h | h | h
        · simp only [Ev.wr.injEq] at h
          exact h.1
        · simp at h
        · split at h <;>
          · simp only [List.mem_singleton, Ev.wr.injEq] at h
            exact h.1
      · cases h
    · cases h
  · split at h
    · simp only [List.mem_singleton, Ev.wr.injEq] at h
      exact h.1
    · cases h

theorem smartSetting_targets (O : Oracle) (S : GState) (n : GNode) :
    ∀ j p, Ev.wr j p ∈ smartSettingEvents O S n → j = n.id := by
  intro j p h
  unfold smartSettingEvents at h
  split at h
  · split at h
    · split at h
      · simp only [List.mem_cons] at h
        rcases h with h | h | h
        · simp only [Ev.wr.injEq] at h
          exact h.1
        · simp at h
        · split at h <;>
          · simp only [List.mem_singleton, Ev.wr.injEq] at h
            exact h.1
      · cases h
    · cases h
  · split at h
    · simp only [List.mem_singleton, Ev.wr.injEq] at h
      exact h.1
    · cases h

theorem smartNode_targets (O : Oracle) (S : GState) (n : GNode) :
    ∀ j p, Ev.wr j p ∈ smartNodeEvents O S n → j = n.id := by
  intro j p h
  unfold smartNodeEvents at h
  split at h
  · rcases List.mem_append.mp h with h2 | h2
    · exact smartChar_targets O S n j p h2
    · exact smartSetting_targets O S n j p h2
  · cases h

theorem connSource_gfind {S : GState} {oc : Option Conn} {ch : GNode}
    (h : connSource S oc = some ch) : gfind S ch.id = some ch := by
  cases oc with
  | none => cases h
  | some cc =>
    have h2 : gfind S cc.fromNodeId = some ch := h
    rw [gfind_id h2]
    exact h2

theorem ruleBSpec_writes (O : Oracle) (tid txt : String) (pp sp : Option J)
    (hok : O.ArchitectTotal) :
    ∀ j p, Ev.wr j p ∈ ruleBSpecEvents O tid txt pp sp → j = tid ∧ StatusSetP p := by
  intro j p h
  unfold ruleBSpecEvents at h
  rcases List.mem_cons.mp h with h | h
  · simp at h
  · split at h
    · rename_i e heq
      have := hok.1 txt pp sp
      rw [heq] at this
      simp [Except.isOk, Except.toBool] at this
    · simp only [List.mem_singleton, Ev.wr.injEq] at h
      obtain ⟨rfl, rfl⟩ := h
      exact ⟨rfl, Or.inr rfl⟩

theorem ruleBFire_writes (O : Oracle) (target : GNode) (txt : String) (sp : Option J)
    (charNode : Option GNode) (hok : O.ArchitectTotal) :
    ∀ j p, Ev.wr j p ∈ ruleBFireEvents O target txt sp charNode →
      (j = target.id ∧ StatusSetP p) ∨
      (∃ ch q, charNode = some ch ∧ ch.type = .character ∧ j = ch.id ∧
        p = { characterPassport := some q }) := by
  intro j p h
  unfold ruleBFireEvents at h
  rcases List.mem_cons.mp h with h | h
  · simp only [Ev.wr.injEq] at h
    obtain ⟨rfl, rfl⟩ := h
    exact Or.inl ⟨rfl, Or.inl rfl⟩
  · cases charNode with
    | none => exact Or.inl (ruleBSpec_writes O target.id txt _ sp hok j p h)
    | some ch =>
      dsimp only at h
      split at h
      · rename_i hchty
        split at h
        · exact Or.inl (ruleBSpec_writes O target.id txt _ sp hok j p h)
        · split at h
          · split at h
            · rename_i e heq
              have := hok.2 ch.data.prompt
              rw [heq] at this
              simp [Except.isOk, Except.toBool] at this
            · rename_i q heq
              rcases List.mem_append.mp h with h2 | h2
              · rcases List.mem_cons.mp h2 with h3 | h3
                · simp at h3
                · split at h3
                  · simp only [List.mem_singleton, Ev.wr.injEq] at h3
                    obtain ⟨rfl, rfl⟩ := h3
                    exact Or.inr ⟨ch, q, rfl, by simpa using hchty, rfl, rfl⟩
                  · cases h3
              · exact Or.inl (ruleBSpec_writes O target.id txt _ sp hok j p h2)
          · exact Or.inl (ruleBSpec_writes O target.id txt _ sp hok j p h)
      · exact Or.inl (ruleBSpec_writes O target.id txt _ sp hok j p h)

theorem rule2_writes (target source : GNode) :
    ∀ j p, Ev.wr j p ∈ rule2Events target source →
      j = target.id ∧ target.type = .transformation ∧
        ∃ v, p = { referenceImage := some v } := by
  intro j p h
  unfold rule2Events at h
  split at h
  · rename_i hty
    split at h
    · simp only [List.mem_singleton, Ev.wr.injEq] at h
      obtain ⟨rfl, rfl⟩ := h
      refine ⟨rfl, ?_, source.data.image, rfl⟩
      have := (Bool.and_eq_true _ _).mp hty
      simpa using this.1
    · cases h
  · cases h

theorem rule3_writes (target source : GNode) :
    ∀ j p, Ev.wr j p ∈ rule3Events target source →
      j = target.id ∧ target.type = .image ∧ StatusSetP p := by
  intro j p h
  unfold rule3Events at h
  split at h
  · rename_i hty
    dsimp only at h
    split at h
    · split at h
      · simp only [List.mem_singleton, Ev.wr.injEq] at h
        obtain ⟨rfl, rfl⟩ := h
        refine ⟨rfl, ?_, Or.inr rfl⟩
        have := (Bool.and_eq_true _ _).mp hty
        simpa using this.1
      · cases h
    · cases h
  · cases h

theorem ruleB_writes (O : Oracle) (S : GState) (c : Conn) (target source : GNode)
    (hok : O.ArchitectTotal) :
    ∀ j p, Ev.wr j p ∈ ruleBEvents O S c target source →
      (j = target.id ∧ target.type = .image ∧ StatusSetP p) ∨
      (∃ ch q, gfind S ch.id = some ch ∧ ch.type = .character ∧ j = ch.id ∧
        p = { characterPassport := some q }) := by
  intro j p h
  unfold ruleBEvents at h
  split at h
  · cases h
  · rename_i hty
    split at h
    · cases h
    · split at h
      · cases h
      · split at h
        · cases h
        · have hty2 : target.type = .image := by
            have := (Bool.and_eq_true _ _).mp (by simpa using hty : (target.type == NType.image && source.type == NType.script) = true)
            simpa using this.1
          rcases ruleBFire_writes O target _ _ _ hok j p h with ⟨h1, h2⟩ | ⟨ch, q, hch, hchty, h1, h2⟩
          · exact Or.inl ⟨h1, hty2, h2⟩
          · exact Or.inr ⟨ch, q, connSource_gfind hch, hchty, h1, h2⟩

theorem enrichConn_writes (O : Oracle) (S : GState) (c : Conn) (hok : O.ArchitectTotal) :
    ∀ j p, Ev.wr j p ∈ enrichConnEvents O S c →
      (∃ m, gfind S j = some m ∧ m.type = .image ∧ StatusSetP p) ∨
      (∃ m q, gfind S j = some m ∧ m.type = .character ∧ p = { characterPassport := some q }) ∨
      (∃ m v, gfind S j = some m ∧ m.type = .transformation ∧
        p = { referenceImage := some v }) := by
  intro j p h
  unfold enrichConnEvents at h
  split at h
  · rename_i target source htar hsrc
    have htid : gfind S target.id = some target := by
      rw [gfind_id htar]; exact htar
    rcases List.mem_append.mp h with h2 | h2
    · rcases List.mem_append.mp h2 with h3 | h3
      · rcases ruleB_writes O S c target source hok j p h3 with ⟨rfl, hty, hst⟩ | ⟨ch, q, hch, hchty, rfl, hp⟩
        · exact Or.inl ⟨target, htid, hty, hst⟩
        · exact Or.inr (Or.inl ⟨ch, q, hch, hchty, hp⟩)
      · obtain ⟨rfl, hty, v, hp⟩ := rule2_writes target source j p h3
        exact Or.inr (Or.inr ⟨target, v, htid, hty, hp⟩)
    · obtain ⟨rfl, hty, hst⟩ := rule3_writes target source j p h2
      exact Or.inl ⟨target, htid, hty, hst⟩
  · cases h

theorem applyPs_cons (d : NData) (p : Payload) (ps : List Payload) :
    applyPs d (p :: ps) = applyPs (mergeP d p) ps := rfl

theorem applyPs_field {α : Type} (f : NData → α) (g : Payload → Option α)
    (hm : ∀ d p, f (mergeP d p) = (g p).getD (f d))
    (d : NData) (ps : List Payload) (h : ∀ p ∈ ps, g p = none) :
    f (applyPs d ps) = f d := by
  induction ps generalizing d with
  | nil => rfl
  | cons p rest ih =>
    rw [applyPs_cons]
    rw [ih (mergeP d p) (fun q hq => h q (List.mem_cons_of_mem _ hq))]
    rw [hm d p, h p (List.mem_cons_self p rest), Option.getD_none]

theorem applyPs_statusSet (d : NData) (p : Payload) (ps : List Payload)
    (h : ∀ q ∈ p :: ps, StatusSetP q) :
    (applyPs d (p :: ps)).sceneEnrichmentStatus = some EStatus.loading ∨
    (applyPs d (p :: ps)).sceneEnrichmentStatus = some EStatus.success := by
  induction ps generalizing d p with
  | nil =>
    rcases h p (List.mem_cons_self p []) with hp | hp
    · left
      show (mergeP d p).sceneEnrichmentStatus = some EStatus.loading
      rw [show (mergeP d p).sceneEnrichmentStatus = p.sceneEnrichmentStatus.getD d.sceneEnrichmentStatus from rfl, hp]
      rfl
    · right
      show (mergeP d p).sceneEnrichmentStatus = some EStatus.success
      rw [show (mergeP d p).sceneEnrichmentStatus = p.sceneEnrichmentStatus.getD d.sceneEnrichmentStatus from rfl, hp]
      rfl
  | cons q rest ih =>
    rw [applyPs_cons]
    exact ih (mergeP d p) q (fun r hr => h r (List.mem_cons_of_mem _ hr))

theorem smartChar_shape (O : Oracle) (S : GState) (n : GNode) :
    ∀ j p, Ev.wr j p ∈ smartCharEvents O S n →
      p.cachedSettingId = none ∧ p.isSettingLoading = none ∧ p.scenes = none := by
  intro j p h
  unfold smartCharEvents at h
  split at h
  · split at h
    · split at h
      · simp only [List.mem_cons] at h
        rcases h with h | h | h
        · simp only [Ev.wr.injEq] at h
          obtain ⟨h1, rfl⟩ := h
          exact ⟨rfl, rfl, rfl⟩
        · simp at h
        · split at h <;>
          · simp only [List.mem_singleton, Ev.wr.injEq] at h
            obtain ⟨h1, rfl⟩ := h
            exact ⟨rfl, rfl, rfl⟩
      · cases h
    · cases h
  · split at h
    · simp only [List.mem_singleton, Ev.wr.injEq] at h
      obtain ⟨h1, rfl⟩ := h
      exact ⟨rfl, rfl, rfl⟩
    · cases h

theorem smartSetting_shape (O : Oracle) (S : GState) (n : GNode) :
    ∀ j p, Ev.wr j p ∈ smartSettingEvents O S n →
      p.cachedCharacterId = none ∧ p.isCharacterLoading = none ∧ p.scenes = none := by
  intro j p h
  unfold smartSettingEvents at h
  split at h
  · split at h
    · split at h
      · simp only [List.mem_cons] at h
        rcases h with h | h | h
        · simp only [Ev.wr.injEq] at h
          obtain ⟨h1, rfl⟩ := h
          exact ⟨rfl, rfl, rfl⟩
        · simp at h
        · split at h <;>
          · simp only [List.mem_singleton, Ev.wr.injEq] at h
            obtain ⟨h1, rfl⟩ := h
            exact ⟨rfl, rfl, rfl⟩
      · cases h
    · cases h
  · split at h
    · simp only [List.mem_singleton, Ev.wr.injEq] at h
      obtain ⟨h1, rfl⟩ := h
      exact ⟨rfl, rfl, rfl⟩
    · cases h

theorem nodup_id_inj {S : GState} (hnd : NodupIds S) {n m : GNode}
    (hn : n ∈ S.nodes) (hm : m ∈ S.nodes) (h : n.id = m.id) : n = m := by
  have h1 := gfind_self hnd hn
  have h2 := gfind_self hnd hm
  rw [h] at h1
  exact Option.some.inj (h1.symm.trans h2)

theorem enricher_no_script_writes (O : Oracle) (S : GState) (hnd : NodupIds S)
    (hok : O.ArchitectTotal) {n : GNode} (hn : n ∈ S.nodes) (hs : n.type = .script) :
    payloadsFor n.id (enricherEvents O S) = [] := by
  apply payloadsFor_eq_nil
  intro j p hjp hji
  obtain ⟨c, hc, hmem⟩ := List.mem_flatMap.mp hjp
  have hgs := gfind_self hnd hn
  rcases enrichConn_writes O S c hok j p hmem with ⟨m, hm, hty, _⟩ | ⟨m, q, hm, hty, _⟩ |
    ⟨m, v, hm, hty, _⟩ <;>
  · rw [hji, hgs] at hm
    cases Option.some.inj hm
    rw [hs] at hty
    cases hty

theorem script_payloads (O : Oracle) (S : GState) (hnd : NodupIds S)
    (hok : O.ArchitectTotal) {n : GNode} (hn : n ∈ S.nodes) (hs : n.type = .script) :
    payloadsFor n.id (engineEvents O S) =
      payloadsFor n.id (smartCharEvents O S n) ++ payloadsFor n.id (smartSettingEvents O S n) := by
  unfold engineEvents
  rw [payloadsFor_append, enricher_no_script_writes O S hnd hok hn hs, List.append_nil]
  unfold smartEvents
  rw [payloadsFor_bind_single hnd hn (fun m _ => smartNode_targets O S m)]
  have hsplit : smartNodeEvents O S n = smartCharEvents O S n ++ smartSettingEvents O S n := by
    unfold smartNodeEvents
    rw [hs]
    rfl
  rw [hsplit, payloadsFor_append]

theorem smartNode_eq_nil_of_type (O : Oracle) (S : GState) {n : GNode}
    (hs : n.type ≠ .script) : smartNodeEvents O S n = [] := by
  unfold smartNodeEvents
  rw [if_neg (fun hb => hs (by simpa using hb))]

theorem image_payloads_statusSet (O : Oracle) (S : GState) (hnd : NodupIds S)
    (hok : O.ArchitectTotal) {n : GNode} (hn : n ∈ S.nodes) (hs : n.type = .image) :
    ∀ p ∈ payloadsFor n.id (engineEvents O S), StatusSetP p := by
  intro p hp
  have hw := mem_of_payloadsFor hp
  unfold engineEvents at hw
  rcases List.mem_append.mp hw with hw | hw
  · obtain ⟨m, hm, hmm⟩ := List.mem_flatMap.mp hw
    have hid := smartNode_targets O S m _ _ hmm
    have heq : n = m := nodup_id_inj hnd hn hm hid
    rw [← heq] at hmm
    rw [smartNode_eq_nil_of_type O S (by rw [hs]; intro hx; cases hx)] at hmm
    cases hmm
  · obtain ⟨c, hc, hmm⟩ := List.mem_flatMap.mp hw
    have hgs := gfind_self hnd hn
    rcases enrichConn_writes O S c hok _ _ hmm with ⟨m, hm, hty, hst⟩ | ⟨m, q, hm, hty, hq⟩ |
      ⟨m, v, hm, hty, hv⟩
    · exact hst
    · rw [hgs] at hm
      cases Option.some.inj hm
      rw [hs] at hty
      cases hty
    · rw [hgs] at hm
      cases Option.some.inj hm
      rw [hs] at hty
      cases hty

theorem payloadsFor_cons_wr_self (i : String) (p : Payload) (evs : List Ev) :
    payloadsFor i (Ev.wr i p :: evs) = p :: payloadsFor i evs := by
  simp [payloadsFor, List.filterMap_cons]

theorem payloadsFor_cons_nonwr (i : String) (ev : Ev) (evs : List Ev)
    (h : ev.isWrite = false) : payloadsFor i (ev :: evs) = payloadsFor i evs := by
  unfold payloadsFor
  rw [List.filterMap_cons]
  split
  · rfl
  · rename_i b heq
    cases ev <;> simp_all [Ev.isWrite]

theorem smartChar_nil (O : Oracle) (S2 : GState) (m : GNode)
    (h1 : ∀ cc, S2.connections.find? (fun c => c.toNodeId == m.id && c.toInputIndex == 0) = some cc →
          ∀ ch, gfind S2 cc.fromNodeId = some ch →
          (m.data.cachedCharacterId != some ch.id && !m.data.isCharacterLoading) = false)
    (h2 : S2.connections.find? (fun c => c.toNodeId == m.id && c.toInputIndex == 0) = none →
          truthyOS m.data.cachedCharacterId = false) :
    smartCharEvents O S2 m = [] := by
  unfold smartCharEvents
  cases hf : S2.connections.find? (fun c => c.toNodeId == m.id && c.toInputIndex == 0) with
  | none =>
    dsimp only
    rw [h2 hf]
    rfl
  | some cc =>
    dsimp only
    cases hg : gfind S2 cc.fromNodeId with
    | none => rfl
    | some ch =>
      dsimp only
      rw [h1 cc hf ch hg]
      rfl

theorem smartSetting_nil (O : Oracle) (S2 : GState) (m : GNode)
    (h1 : ∀ cc, S2.connections.find? (fun c => c.toNodeId == m.id && c.toInputIndex == 1) = some cc →
          ∀ st, gfind S2 cc.fromNodeId = some st →
          (m.data.cachedSettingId != some st.id && !m.data.isSettingLoading) = false)
    (h2 : S2.connections.find? (fun c => c.toNodeId == m.id && c.toInputIndex == 1) = none →
          truthyOS m.data.cachedSettingId = false) :
    smartSettingEvents O S2 m = [] := by
  unfold smartSettingEvents
  cases hf : S2.connections.find? (fun c => c.toNodeId == m.id && c.toInputIndex == 1) with
  | none =>
    dsimp only
    rw [h2 hf]
    rfl
  | some cc =>
    dsimp only
    cases hg : gfind S2 cc.fromNodeId with
    | none => rfl
    | some st =>
      dsimp only
      rw [h1 cc hf st hg]
      rfl

theorem smartChar_second (O : Oracle) (S : GState) (hnd : NodupIds S)
    (hok : O.ArchitectTotal) {n : GNode} (hn : n ∈ S.nodes) (hs : n.type = .script) :
    smartCharEvents O (engineStep O S) (evalNode (engineEvents O S) n) = [] := by
  have hps := script_payloads O S hnd hok hn hs
  have hdata : (evalNode (engineEvents O S) n).data =
      applyPs n.data (payloadsFor n.id (engineEvents O S)) := rfl
  have hsetpres : ∀ d : NData,
      (applyPs d (payloadsFor n.id (smartSettingEvents O S n))).cachedCharacterId =
        d.cachedCharacterId := fun d =>
    applyPs_field (fun x => x.cachedCharacterId) (fun p => p.cachedCharacterId)
      (fun _ _ => rfl) d _
      (fun p hp => (smartSetting_shape O S n n.id p (mem_of_payloadsFor hp)).1)
  have hsetpresL : ∀ d : NData,
      (applyPs d (payloadsFor n.id (smartSettingEvents O S n))).isCharacterLoading =
        d.isCharacterLoading := fun d =>
    applyPs_field (fun x => x.isCharacterLoading) (fun p => p.isCharacterLoading)
      (fun _ _ => rfl) d _
      (fun p hp => (smartSetting_shape O S n n.id p (mem_of_payloadsFor hp)).2.1)
  apply smartChar_nil
  · intro cc hf ch hg
    have hf1 : S.connections.find? (fun c => c.toNodeId == n.id && c.toInputIndex == 0) =
        some cc := by
      rw [← applyEvs_connections S (engineEvents O S)]
      exact hf
    obtain ⟨ch0, hch0, hche⟩ := Option.map_eq_some'.mp (show
        (gfind S cc.fromNodeId).map (evalNode (engineEvents O S)) = some ch by
      rw [← gfind_applyEvs S (engineEvents O S) cc.fromNodeId]
      exact hg)
    have hchid : ch.id = ch0.id := by
      rw [← hche]
      rfl
    by_cases hg1 : (n.data.cachedCharacterId != some ch0.id && !n.data.isCharacterLoading) = true
    · cases horc : O.enrichCharacter SC.mainCharacter ch0.data.prompt ch0.data.image with
      | ok jj =>
        have hrun : smartCharEvents O S n =
            [Ev.wr n.id { isCharacterLoading := some true },
             Ev.callEnrichCharacter n.id SC.mainCharacter ch0.data.prompt ch0.data.image,
             Ev.wr n.id { isCharacterLoading := some false,
                          cachedCharacterId := some (some ch0.id),
                          cachedCharacterJson := some jj }] := by
          unfold smartCharEvents
          rw [hf1]
          dsimp only
          rw [hch0]
          dsimp only
          rw [if_pos hg1, horc]
        have hcc2 : (evalNode (engineEvents O S) n).data.cachedCharacterId = some ch0.id := by
          rw [hdata, hps, applyPs_append, hsetpres, hrun, payloadsFor_cons_wr_self,
            payloadsFor_cons_nonwr n.id
              (Ev.callEnrichCharacter n.id SC.mainCharacter ch0.data.prompt ch0.data.image) _ rfl,
            payloadsFor_cons_wr_self]
          rfl
        rw [hcc2, hchid]
        simp
      | error e =>
        have hrun : smartCharEvents O S n =
            [Ev.wr n.id { isCharacterLoading := some true },
             Ev.callEnrichCharacter n.id SC.mainCharacter ch0.data.prompt ch0.data.image,
             Ev.wr n.id { isCharacterLoading := some false,
                          cachedCharacterId := some (some ch0.id) }] := by
          unfold smartCharEvents
          rw [hf1]
          dsimp only
          rw [hch0]
          dsimp only
          rw [if_pos hg1, horc]
        have hcc2 : (evalNode (engineEvents O S) n).data.cachedCharacterId = some ch0.id := by
          rw [hdata, hps, applyPs_append, hsetpres, hrun, payloadsFor_cons_wr_self,
            payloadsFor_cons_nonwr n.id
              (Ev.callEnrichCharacter n.id SC.mainCharacter ch0.data.prompt ch0.data.image) _ rfl,
            payloadsFor_cons_wr_self]
          rfl
        rw [hcc2, hchid]
        simp
    · have hrun : smartCharEvents O S n = [] := by
        unfold smartCharEvents
        rw [hf1]
        dsimp only
        rw [hch0]
        dsimp only
        rw [if_neg hg1]
      have hcc2 : (evalNode (engineEvents O S) n).data.cachedCharacterId =
          n.data.cachedCharacterId := by
        rw [hdata, hps, applyPs_append, hsetpres, hrun]
        rfl
      have hcl2 : (evalNode (engineEvents O S) n).data.isCharacterLoading =
          n.data.isCharacterLoading := by
        rw [hdata, hps, applyPs_append, hsetpresL, hrun]
        rfl
      rw [hcc2, hcl2, hchid]
      simpa using hg1
  · intro hf
    have hf1 : S.connections.find? (fun c => c.toNodeId == n.id && c.toInputIndex == 0) =
        none := by
      rw [← applyEvs_connections S (engineEvents O S)]
      exact hf
    by_cases htr : truthyOS n.data.cachedCharacterId = true
    · have hrun : smartCharEvents O S n =
          [Ev.wr n.id { cachedCharacterId := some none, cachedCharacterJson := some none,
                        isCharacterLoading := some false }] := by
        unfold smartCharEvents
        rw [hf1]
        dsimp only
        rw [if_pos htr]
      have hcc2 : (evalNode (engineEvents O S) n).data.cachedCharacterId = none := by
        rw [hdata, hps, applyPs_append, hsetpres, hrun, payloadsFor_cons_wr_self]
        rfl
      rw [hcc2]
      rfl
    · have hrun : smartCharEvents O S n = [] := by
        unfold smartCharEvents
        rw [hf1]
        dsimp only
        rw [if_neg htr]
      have hcc2 : (evalNode (engineEvents O S) n).data.cachedCharacterId =
          n.data.cachedCharacterId := by
        rw [hdata, hps, applyPs_append, hsetpres, hrun]
        rfl
      rw [hcc2]
      simpa using htr

theorem smartSetting_second (O : Oracle) (S : GState) (hnd : NodupIds S)
    (hok : O.ArchitectTotal) {n : GNode} (hn : n ∈ S.nodes) (hs : n.type = .script) :
    smartSettingEvents O (engineStep O S) (evalNode (engineEvents O S) n) = [] := by
  have hps := script_payloads O S hnd hok hn hs
  have hdata : (evalNode (engineEvents O S) n).data =
      applyPs n.data (payloadsFor n.id (engineEvents O S)) := rfl
  have hcharps : ∀ d : NData,
      (applyPs d (payloadsFor n.id (smartCharEvents O S n))).cachedSettingId =
        d.cachedSettingId := fun d =>
    applyPs_field (fun x => x.cachedSettingId) (fun p => p.cachedSettingId)
      (fun _ _ => rfl) d _
      (fun p hp => (smartChar_shape O S n n.id p (mem_of_payloadsFor hp)).1)
  have hcharpsL : ∀ d : NData,
      (applyPs d (payloadsFor n.id (smartCharEvents O S n))).isSettingLoading =
        d.isSettingLoading := fun d =>
    applyPs_field (fun x => x.isSettingLoading) (fun p => p.isSettingLoading)
      (fun _ _ => rfl) d _
      (fun p hp => (smartChar_shape O S n n.id p (mem_of_payloadsFor hp)).2.1)
  apply smartSetting_nil
  · intro cc hf st hg
    have hf1 : S.connections.find? (fun c => c.toNodeId == n.id && c.toInputIndex == 1) =
        some cc := by
      rw [← applyEvs_connections S (engineEvents O S)]
      exact hf
    obtain ⟨st0, hst0, hste⟩ := Option.map_eq_some'.mp (show
        (gfind S cc.fromNodeId).map (evalNode (engineEvents O S)) = some st by
      rw [← gfind_applyEvs S (engineEvents O S) cc.fromNodeId]
      exact hg)
    have hstid : st.id = st0.id := by
      rw [← hste]
      rfl
    by_cases hg1 : (n.data.cachedSettingId != some st0.id && !n.data.isSettingLoading) = true
    · cases horc : O.enrichSetting st0.data.prompt st0.data.image with
      | ok jj =>
        have hrun : smartSettingEvents O S n =
            [Ev.wr n.id { isSettingLoading := some true },
             Ev.callEnrichSetting n.id st0.data.prompt st0.data.image,
             Ev.wr n.id { isSettingLoading := some false,
                          cachedSettingId := some (some st0.id),
                          cachedSettingJson := some jj }] := by
          unfold smartSettingEvents
          rw [hf1]
          dsimp only
          rw [hst0]
          dsimp only
          rw [if_pos hg1, horc]
        have hcc2 : (evalNode (engineEvents O S) n).data.cachedSettingId = some st0.id := by
          rw [hdata, hps, applyPs_append, hrun, payloadsFor_cons_wr_self,
            payloadsFor_cons_nonwr n.id
              (Ev.callEnrichSetting n.id st0.data.prompt st0.data.image) _ rfl,
            payloadsFor_cons_wr_self]
          rfl
        rw [hcc2, hstid]
        simp
      | error e =>
        have hrun : smartSettingEvents O S n =
            [Ev.wr n.id { isSettingLoading := some true },
             Ev.callEnrichSetting n.id st0.data.prompt st0.data.image,
             Ev.wr n.id { isSettingLoading := some false,
                          cachedSettingId := some (some st0.id) }] := by
          unfold smartSettingEvents
          rw [hf1]
          dsimp only
          rw [hst0]
          dsimp only
          rw [if_pos hg1, horc]
        have hcc2 : (evalNode (engineEvents O S) n).data.cachedSettingId = some st0.id := by
          rw [hdata, hps, applyPs_append, hrun, payloadsFor_cons_wr_self,
            payloadsFor_cons_nonwr n.id
              (Ev.callEnrichSetting n.id st0.data.prompt st0.data.image) _ rfl,
            payloadsFor_cons_wr_self]
          rfl
        rw [hcc2, hstid]
        simp
    · have hrun : smartSettingEvents O S n = [] := by
        unfold smartSettingEvents
        rw [hf1]
        dsimp only
        rw [hst0]
        dsimp only
        rw [if_neg hg1]
      have hcc2 : (evalNode (engineEvents O S) n).data.cachedSettingId =
          n.data.cachedSettingId := by
        rw [hdata, hps, applyPs_append, hrun]
        exact hcharps n.data
      have hcl2 : (evalNode (engineEvents O S) n).data.isSettingLoading =
          n.data.isSettingLoading := by
        rw [hdata, hps, applyPs_append, hrun]
        exact hcharpsL n.data
      rw [hcc2, hcl2, hstid]
      simpa using hg1
  · intro hf
    have hf1 : S.connections.find? (fun c => c.toNodeId == n.id && c.toInputIndex == 1) =
        none := by
      rw [← applyEvs_connections S (engineEvents O S)]
      exact hf
    by_cases htr : truthyOS n.data.cachedSettingId = true
    · have hrun : smartSettingEvents O S n =
          [Ev.wr n.id { cachedSettingId := some none, cachedSettingJson := some none,
                        isSettingLoading := some false }] := by
        unfold smartSettingEvents
        rw [hf1]
        dsimp only
        rw [if_pos htr]
      have hcc2 : (evalNode (engineEvents O S) n).data.cachedSettingId = none := by
        rw [hdata, hps, applyPs_append, hrun, payloadsFor_cons_wr_self]
        rfl
      rw [hcc2]
      rfl
    · have hrun : smartSettingEvents O S n = [] := by
        unfold smartSettingEvents
        rw [hf1]
        dsimp only
        rw [if_neg htr]
      have hcc2 : (evalNode (engineEvents O S) n).data.cachedSettingId =
          n.data.cachedSettingId := by
        rw [hdata, hps, applyPs_append, hrun]
        exact hcharps n.data
      rw [hcc2]
      simpa using htr

theorem smartNode_second (O : Oracle) (S : GState) (hnd : NodupIds S)
    (hok : O.ArchitectTotal) {n : GNode} (hn : n ∈ S.nodes) :
    smartNodeEvents O (engineStep O S) (evalNode (engineEvents O S) n) = [] := by
  by_cases hs : n.type = NType.script
  · unfold smartNodeEvents
    rw [show (evalNode (engineEvents O S) n).type = n.type from rfl, hs,
      if_pos (show (NType.script == NType.script) = true from rfl),
      smartChar_second O S hnd hok hn hs, smartSetting_second O S hnd hok hn hs]
    rfl
  · exact smartNode_eq_nil_of_type O (engineStep O S)
      (show (evalNode (engineEvents O S) n).type ≠ NType.script from hs)

theorem smartEvents_second (O : Oracle) (S : GState) (hnd : NodupIds S)
    (hok : O.ArchitectTotal) : smartEvents O (engineStep O S) = [] := by
  unfold smartEvents
  rw [show (engineStep O S).nodes = S.nodes.map (evalNode (engineEvents O S)) from
    applyEvs_nodes S (engineEvents O S)]
  rw [List.flatMap_eq_nil_iff]
  intro m hm
  obtain ⟨n, hn, rfl⟩ := List.mem_map.mp hm
  exact smartNode_second O S hnd hok hn

theorem ruleB_second (O : Oracle) (S : GState) (hnd : NodupIds S) (hok : O.ArchitectTotal)
    {c : Conn} (hc : c ∈ S.connections) {target source : GNode}
    (htar : gfind S c.toNodeId = some target) (hsrc : gfind S c.fromNodeId = some source) :
    ruleBEvents O (engineStep O S) c (evalNode (engineEvents O S) target)
      (evalNode (engineEvents O S) source) = [] := by
  have htmem : target ∈ S.nodes := gfind_mem htar
  have hsmem : source ∈ S.nodes := gfind_mem hsrc
  unfold ruleBEvents
  by_cases h1 : ((evalNode (engineEvents O S) target).type == NType.image &&
      (evalNode (engineEvents O S) source).type == NType.script) = true
  case neg =>
    have hb : ((evalNode (engineEvents O S) target).type == NType.image &&
        (evalNode (engineEvents O S) source).type == NType.script) = false := by
      simpa using h1
    rw [hb]
    rfl
  case pos =>
    have htyt : target.type = NType.image := by
      have h2 := ((Bool.and_eq_true _ _).mp h1).1
      rw [show (evalNode (engineEvents O S) target).type = target.type from rfl] at h2
      simpa using h2
    have htys : source.type = NType.script := by
      have h2 := ((Bool.and_eq_true _ _).mp h1).2
      rw [show (evalNode (engineEvents O S) source).type = source.type from rfl] at h2
      simpa using h2
    rw [if_neg (by simp [h1])]
    by_cases h2 : ((evalNode (engineEvents O S) target).data.mode ==
        some NMode.transformation) = true
    · rw [if_pos h2]
    · rw [if_neg h2]
      by_cases h3 : (truthyOJ (evalNode (engineEvents O S) target).data.enrichedSceneJson ||
          (evalNode (engineEvents O S) target).data.sceneEnrichmentStatus ==
            some EStatus.loading ||
          (evalNode (engineEvents O S) target).data.sceneEnrichmentStatus ==
            some EStatus.success) = true
      · rw [if_pos h3]
      · rw [if_neg h3]
        have hscn : (evalNode (engineEvents O S) source).data.scenes = source.data.scenes := by
          show (applyPs source.data (payloadsFor source.id (engineEvents O S))).scenes =
            source.data.scenes
          rw [script_payloads O S hnd hok hsmem htys, applyPs_append]
          rw [applyPs_field (fun x => x.scenes) (fun p => p.scenes) (fun _ _ => rfl) _ _
            (fun p hp => (smartSetting_shape O S source source.id p (mem_of_payloadsFor hp)).2.2)]
          exact applyPs_field (fun x => x.scenes) (fun p => p.scenes) (fun _ _ => rfl) _ _
            (fun p hp => (smartChar_shape O S source source.id p (mem_of_payloadsFor hp)).2.2)
        by_cases h4 : truthyS (sceneDescOf (sceneFromOutput
            (evalNode (engineEvents O S) source).data.scenes c.fromOutput)) = true
        · exfalso
          cases hps : payloadsFor target.id (engineEvents O S) with
          | cons p ps =>
            have hall := image_payloads_statusSet O S hnd hok htmem htyt
            rw [hps] at hall
            have hstat := applyPs_statusSet target.data p ps hall
            have hd : (evalNode (engineEvents O S) target).data.sceneEnrichmentStatus =
                (applyPs target.data (p :: ps)).sceneEnrichmentStatus := by
              show (applyPs target.data
                (payloadsFor target.id (engineEvents O S))).sceneEnrichmentStatus = _
              rw [hps]
            apply h3
            rcases hstat with hl | hs2
            · have hx := hd.trans hl
              simp [hx]
            · have hx := hd.trans hs2
              simp [hx]
          | nil =>
            have htd : (evalNode (engineEvents O S) target).data = target.data := by
              show applyPs target.data (payloadsFor target.id (engineEvents O S)) = target.data
              rw [hps]
              rfl
            rw [htd] at h2 h3
            rw [hscn] at h4
            have hr1 : ∃ a b d, ruleBEvents O S c target source = ruleBFireEvents O target a b d := by
              unfold ruleBEvents
              rw [if_neg (by simp [htyt, htys]), if_neg h2, if_neg h3, if_neg (by simp [h4])]
              exact ⟨_, _, _, rfl⟩
            obtain ⟨a, b, d, hr1⟩ := hr1
            have hwmem : Ev.wr target.id { sceneEnrichmentStatus := some (some EStatus.loading) } ∈
                ruleBEvents O S c target source := by
              rw [hr1]
              exact List.mem_cons_self _ _
            have hce : enrichConnEvents O S c = ruleBEvents O S c target source ++
                rule2Events target source ++ rule3Events target source := by
              unfold enrichConnEvents
              rw [htar, hsrc]
            have hmem2 : Ev.wr target.id
                { sceneEnrichmentStatus := some (some EStatus.loading) } ∈
                engineEvents O S := by
              unfold engineEvents
              apply List.mem_append_right
              unfold enricherEvents
              exact List.mem_flatMap.mpr ⟨c, hc, by
                rw [hce]
                exact List.mem_append_left _ (List.mem_append_left _ hwmem)⟩
            have hpm := payloadsFor_mem hmem2
            rw [hps] at hpm
            cases hpm
        · rw [if_pos (by simpa using h4)]

theorem rule2_evshape (target source : GNode) :
    ∀ ev ∈ rule2Events target source, ev.isWrite = true ∧ Ev.touchesLoadingFlag ev = false := by
  intro ev h
  unfold rule2Events at h
  split at h
  · split at h
    · simp only [List.mem_singleton] at h
      subst h
      exact ⟨rfl, rfl⟩
    · cases h
  · cases h

theorem rule3_evshape (target source : GNode) :
    ∀ ev ∈ rule3Events target source, ev.isWrite = true ∧ Ev.touchesLoadingFlag ev = false := by
  intro ev h
  unfold rule3Events at h
  split at h
  · dsimp only at h
    split at h
    · split at h
      · simp only [List.mem_singleton] at h
        subst h
        exact ⟨rfl, rfl⟩
      · cases h
    · cases h
  · cases h

theorem enricher_second_events (O : Oracle) (S : GState) (hnd : NodupIds S)
    (hok : O.ArchitectTotal) :
    ∀ ev ∈ enricherEvents O (engineStep O S),
      ev.isWrite = true ∧ Ev.touchesLoadingFlag ev = false := by
  intro ev hev
  unfold enricherEvents at hev
  obtain ⟨c, hc, hmem⟩ := List.mem_flatMap.mp hev
  have hc2 : c ∈ S.connections := by
    rw [← applyEvs_connections S (engineEvents O S)]
    exact hc
  unfold enrichConnEvents at hmem
  cases ht0 : gfind S c.toNodeId with
  | none =>
    have h2t : gfind (engineStep O S) c.toNodeId = none := by
      rw [show gfind (engineStep O S) c.toNodeId =
        (gfind S c.toNodeId).map (evalNode (engineEvents O S)) from gfind_applyEvs S _ _, ht0]
      rfl
    cases hf0 : gfind S c.fromNodeId with
    | none =>
      have h2f : gfind (engineStep O S) c.fromNodeId = none := by
        rw [show gfind (engineStep O S) c.fromNodeId =
          (gfind S c.fromNodeId).map (evalNode (engineEvents O S)) from gfind_applyEvs S _ _, hf0]
        rfl
      rw [h2t, h2f] at hmem
      cases hmem
    | some s0 =>
      have h2f : gfind (engineStep O S) c.fromNodeId =
          some (evalNode (engineEvents O S) s0) := by
        rw [show gfind (engineStep O S) c.fromNodeId =
          (gfind S c.fromNodeId).map (evalNode (engineEvents O S)) from gfind_applyEvs S _ _, hf0]
        rfl
      rw [h2t, h2f] at hmem
      cases hmem
  | some t0 =>
    have h2t : gfind (engineStep O S) c.toNodeId =
        some (evalNode (engineEvents O S) t0) := by
      rw [show gfind (engineStep O S) c.toNodeId =
        (gfind S c.toNodeId).map (evalNode (engineEvents O S)) from gfind_applyEvs S _ _, ht0]
      rfl
    cases hf0 : gfind S c.fromNodeId with
    | none =>
      have h2f : gfind (engineStep O S) c.fromNodeId = none := by
        rw [show gfind (engineStep O S) c.fromNodeId =
          (gfind S c.fromNodeId).map (evalNode (engineEvents O S)) from gfind_applyEvs S _ _, hf0]
        rfl
      rw [h2t, h2f] at hmem
      cases hmem
    | some s0 =>
      have h2f : gfind (engineStep O S) c.fromNodeId =
          some (evalNode (engineEvents O S) s0) := by
        rw [show gfind (engineStep O S) c.fromNodeId =
          (gfind S c.fromNodeId).map (evalNode (engineEvents O S)) from gfind_applyEvs S _ _, hf0]
        rfl
      rw [h2t, h2f] at hmem
      dsimp only at hmem
      rw [ruleB_second O S hnd hok hc2 ht0 hf0, List.nil_append] at hmem
      rcases List.mem_append.mp hmem with hm2 | hm3
      · exact rule2_evshape _ _ ev hm2
      · exact rule3_evshape _ _ ev hm3

/-- **C1** (amended): with distinct node ids and with the architect-stage
collaborators (`fetchCinematicSpec`, `fetchCharacterPassport`) never
rejecting, a second run of the Enrichment Propagation Engine with no
intervening mutation issues no derivation calls and performs no write
that touches a loading flag (`isCharacterLoading`, `isSettingLoading`,
`isLoading`, or `sceneEnrichmentStatus = loading`). The claim's further
assertions — byte-identical node data, and the property extending to
states where a prior enrichment ended with status `error` — are refuted
by `c1_engine_idempotence_counterexample`. -/
theorem c1_engine_idempotence_amended (O : Oracle) (S : GState)
    (hnd : NodupIds S) (hok : O.ArchitectTotal) :
    callsOf (engineEvents O (engineStep O S)) = [] ∧
    loadingWrites (engineEvents O (engineStep O S)) = [] := by
  have hall : ∀ ev ∈ engineEvents O (engineStep O S),
      ev.isWrite = true ∧ Ev.touchesLoadingFlag ev = false := by
    intro ev hev
    unfold engineEvents at hev
    rw [smartEvents_second O S hnd hok, List.nil_append] at hev
    exact enricher_second_events O S hnd hok ev hev
  constructor
  · unfold callsOf
    rw [List.filter_eq_nil_iff]
    intro ev hev
    simp [(hall ev hev).1]
  · unfold loadingWrites
    rw [List.filter_eq_nil_iff]
    intro ev hev
    simp [(hall ev hev).2]

theorem c1_engine_idempotence_witness :
    callsOf (engineEvents oracleW (engineStep oracleW c1SChain)) = [] ∧
    loadingWrites (engineEvents oracleW (engineStep oracleW c1SChain)) = [] :=
  c1_engine_idempotence_amended oracleW c1SChain
    (by unfold NodupIds; decide) ⟨fun _ _ _ => rfl, fun _ => rfl⟩

/-- C1 counterexample: (i) on a graph whose Image node sits in
`sceneEnrichmentStatus = error` (architect call rejecting), the second
engine run re-issues the derivation call and re-toggles the loading
status, and (ii) on a settled Image-to-Transformation-to-Image chain
with a total oracle, the second run still changes node data (the
reference-image propagation advances one hop per run), so the two runs
are not byte-identical. -/
theorem c1_engine_idempotence_counterexample :
    (callsOf (engineEvents c1OracleErr (engineStep c1OracleErr c1SErr)) ≠ [] ∧
     loadingWrites (engineEvents c1OracleErr (engineStep c1OracleErr c1SErr)) ≠ []) ∧
    engineStep oracleW (engineStep oracleW c1SChain) ≠ engineStep oracleW c1SChain := by
  decide
